import Mathlib

/-!
Verification of the WMS wrapper (src/app.py, src/getonhand.py).

The Python service is embedded shallowly: decoded JSON bodies become the
inductive `Json` type, a response body that failed to decode is `none`,
and `requests.get` results are passed to each handler as an explicit
`Except String Resp` parameter (`Except.error e` models the call raising
an exception `e`; handlers that catch it return a structured JSON value,
handlers that do not let it escape as `Except.error`).  Python floats are
modelled as rationals.
-/

namespace Wms

/-- A decoded JSON value, as produced by Python's `json` module.
Objects are association lists; upstream bodies are assumed free of
duplicate keys (Python's decoder cannot produce them). -/
inductive Json where
  | null : Json
  | bool : Bool → Json
  | num : ℚ → Json
  | str : String → Json
  | arr : List Json → Json
  | obj : List (String × Json) → Json

/-- Decidable equality for `Json` (written by hand: the nested inductive
defeats the automatic deriving in this toolchain). -/
def Json.decEq : (a b : Json) → Decidable (a = b)
  | .null, .null => isTrue rfl
  | .bool a, .bool b =>
    if h : a = b then isTrue (by rw [h])
    else isFalse (fun he => h (Json.bool.inj he))
  | .num a, .num b =>
    if h : a = b then isTrue (by rw [h])
    else isFalse (fun he => h (Json.num.inj he))
  | .str a, .str b =>
    if h : a = b then isTrue (by rw [h])
    else isFalse (fun he => h (Json.str.inj he))
  | .arr as, .arr bs =>
    match goList as bs with
    | isTrue h => isTrue (by rw [h])
    | isFalse h => isFalse (fun he => h (Json.arr.inj he))
  | .obj as, .obj bs =>
    match goKV as bs with
    | isTrue h => isTrue (by rw [h])
    | isFalse h => isFalse (fun he => h (Json.obj.inj he))
  | .null, .bool _ => isFalse (fun h => Json.noConfusion h)
  | .null, .num _ => isFalse (fun h => Json.noConfusion h)
  | .null, .str _ => isFalse (fun h => Json.noConfusion h)
  | .null, .arr _ => isFalse (fun h => Json.noConfusion h)
  | .null, .obj _ => isFalse (fun h => Json.noConfusion h)
  | .bool _, .null => isFalse (fun h => Json.noConfusion h)
  | .bool _, .num _ => isFalse (fun h => Json.noConfusion h)
  | .bool _, .str _ => isFalse (fun h => Json.noConfusion h)
  | .bool _, .arr _ => isFalse (fun h => Json.noConfusion h)
  | .bool _, .obj _ => isFalse (fun h => Json.noConfusion h)
  | .num _, .null => isFalse (fun h => Json.noConfusion h)
  | .num _, .bool _ => isFalse (fun h => Json.noConfusion h)
  | .num _, .str _ => isFalse (fun h => Json.noConfusion h)
  | .num _, .arr _ => isFalse (fun h => Json.noConfusion h)
  | .num _, .obj _ => isFalse (fun h => Json.noConfusion h)
  | .str _, .null => isFalse (fun h => Json.noConfusion h)
  | .str _, .bool _ => isFalse (fun h => Json.noConfusion h)
  | .str _, .num _ => isFalse (fun h => Json.noConfusion h)
  | .str _, .arr _ => isFalse (fun h => Json.noConfusion h)
  | .str _, .obj _ => isFalse (fun h => Json.noConfusion h)
  | .arr _, .null => isFalse (fun h => Json.noConfusion h)
  | .arr _, .bool _ => isFalse (fun h => Json.noConfusion h)
  | .arr _, .num _ => isFalse (fun h => Json.noConfusion h)
  | .arr _, .str _ => isFalse (fun h => Json.noConfusion h)
  | .arr _, .obj _ => isFalse (fun h => Json.noConfusion h)
  | .obj _, .null => isFalse (fun h => Json.noConfusion h)
  | .obj _, .bool _ => isFalse (fun h => Json.noConfusion h)
  | .obj _, .num _ => isFalse (fun h => Json.noConfusion h)
  | .obj _, .str _ => isFalse (fun h => Json.noConfusion h)
  | .obj _, .arr _ => isFalse (fun h => Json.noConfusion h)
where
  goList : (as bs : List Json) → Decidable (as = bs)
    | [], [] => isTrue rfl
    | a :: as, b :: bs =>
      match Json.decEq a b, goList as bs with
      | isTrue h1, isTrue h2 => isTrue (by rw [h1, h2])
      | isFalse h1, _ => isFalse (fun he => h1 (List.cons.inj he).1)
      | _, isFalse h2 => isFalse (fun he => h2 (List.cons.inj he).2)
    | [], _ :: _ => isFalse (fun h => List.noConfusion h)
    | _ :: _, [] => isFalse (fun h => List.noConfusion h)
  goKV : (as bs : List (String × Json)) → Decidable (as = bs)
    | [], [] => isTrue rfl
    | (k1, v1) :: as, (k2, v2) :: bs =>
      if h1 : k1 = k2 then
        match Json.decEq v1 v2, goKV as bs with
        | isTrue h2, isTrue h3 => isTrue (by rw [h1, h2, h3])
        | isFalse h2, _ =>
          isFalse (fun he => h2 (congrArg Prod.snd (List.cons.inj he).1))
        | _, isFalse h3 => isFalse (fun he => h3 (List.cons.inj he).2)
      else isFalse (fun he => h1 (congrArg Prod.fst (List.cons.inj he).1))
    | [], _ :: _ => isFalse (fun h => List.noConfusion h)
    | _ :: _, [] => isFalse (fun h => List.noConfusion h)

instance : DecidableEq Json := Json.decEq

/-- Key lookup in a decoded JSON object (Python `d[k]` / `k in d`). -/
def lookupKey : List (String × Json) → String → Option Json
  | [], _ => none
  | (k, v) :: rest, key => if k = key then some v else lookupKey rest key

/-- `safe_wms_json` (src/app.py lines 18-53).  The argument is the decoded
body of the upstream response; `none` models a JSON-decode failure of
`response.json()`.  Being a total Lean function, it visibly never raises. -/
def safe_wms_json : Option Json → List Json
  | none => []
  | some (Json.str _) => []
  | some (Json.arr l) => l
  | some (Json.obj kvs) =>
    match lookupKey kvs "results" with
    | some (Json.arr l) => l
    | _ =>
      match lookupKey kvs "rows" with
      | some (Json.arr l) => l
      | _ => [Json.obj kvs]
  | some _ => []

/-- The list held under a given key of a JSON object, when that key is
present and holds a list. -/
def listUnder (kvs : List (String × Json)) (key : String) : Option (List Json) :=
  match lookupKey kvs key with
  | some (Json.arr l) => some l
  | _ => none

/-- The normalizer contract exactly as the specification phrases it:
a string yields the empty sequence; a list is returned unchanged; a dict
whose `results` key holds a list yields that inner list; otherwise a dict
whose `rows` key holds a list yields that inner list; any other dict
yields a one-element sequence containing that dict; any other shape, or a
JSON-decode failure, yields the empty sequence. -/
def normalizerSpec : Option Json → List Json
  | none => []
  | some (Json.str _) => []
  | some (Json.arr l) => l
  | some (Json.obj kvs) =>
    match listUnder kvs "results" with
    | some l => l
    | none =>
      match listUnder kvs "rows" with
      | some l => l
      | none => [Json.obj kvs]
  | some _ => []

/-- C1: for every decoded JSON value (or decode failure, `none`), the
response normalizer `safe_wms_json` follows exactly the precedence the
specification states, and, being total, never raises. -/
theorem safe_wms_json_meets_spec (raw : Option Json) :
    safe_wms_json raw = normalizerSpec raw := by
  cases raw with
  | none => rfl
  | some j =>
    cases j with
    | null => rfl
    | bool b => rfl
    | num q => rfl
    | str s => rfl
    | arr l => rfl
    | obj kvs =>
      show (match lookupKey kvs "results" with
        | some (Json.arr l) => l
        | _ =>
          match lookupKey kvs "rows" with
          | some (Json.arr l) => l
          | _ => [Json.obj kvs]) = _
      rw [normalizerSpec, listUnder, listUnder]
      cases hr : lookupKey kvs "results" with
      | none =>
        cases hw : lookupKey kvs "rows" with
        | none => rfl
        | some jw => cases jw <;> rfl
      | some jr =>
        cases jr with
        | arr l => rfl
        | null =>
          cases hw : lookupKey kvs "rows" with
          | none => rfl
          | some jw => cases jw <;> rfl
        | bool b =>
          cases hw : lookupKey kvs "rows" with
          | none => rfl
          | some jw => cases jw <;> rfl
        | num q =>
          cases hw : lookupKey kvs "rows" with
          | none => rfl
          | some jw => cases jw <;> rfl
        | str s =>
          cases hw : lookupKey kvs "rows" with
          | none => rfl
          | some jw => cases jw <;> rfl
        | obj kvs2 =>
          cases hw : lookupKey kvs "rows" with
          | none => rfl
          | some jw => cases jw <;> rfl

/-! ## Python semantics helpers -/

/-- Python truthiness of a decoded JSON value (`bool(x)`):
`None`, `False`, `0`, `""`, `[]`, `{}` are falsy, everything else truthy. -/
def pyTruthy : Json → Bool
  | Json.null => false
  | Json.bool b => b
  | Json.num q => decide (q ≠ 0)
  | Json.str s => decide (s ≠ "")
  | Json.arr l => !l.isEmpty
  | Json.obj kvs => !kvs.isEmpty

/-- Truthiness of the result of `row.get(k)`: `None` (absent key) is falsy. -/
def optTruthy : Option Json → Bool
  | none => false
  | some j => pyTruthy j

/-- `row.get(k)`: `None` when the key is absent, and an `AttributeError`
when the row is not a dict. -/
def pyGet (row : Json) (k : String) : Except String (Option Json) :=
  match row with
  | Json.obj kvs => Except.ok (lookupKey kvs k)
  | _ => Except.error "AttributeError: get"

/-- `row.get(k, d)` with a default. -/
def pyGetD (row : Json) (k : String) (d : Json) : Except String Json :=
  match row with
  | Json.obj kvs => Except.ok ((lookupKey kvs k).getD d)
  | _ => Except.error "AttributeError: get"

/-- Digit string to natural number, most significant digit first. -/
def natOfDigits (cs : List Char) : ℕ :=
  cs.foldl (fun n c => 10 * n + (c.toNat - 48)) 0

/-- Python's parsing of a decimal float literal: optional sign, integer
digits, optional fraction (`"5"`, `"5."`, `".5"`, `"-2.25"`).  Exponents,
`inf`/`nan` and surrounding whitespace are not modelled; the service only
ever meets plain decimal quantities. -/
def parseDecimal (s : String) : Option ℚ :=
  let cs := s.toList
  let signed : ℚ × List Char :=
    match cs with
    | '-' :: r => (-1, r)
    | '+' :: r => (1, r)
    | _ => (1, cs)
  let ip := signed.2.takeWhile (· ≠ '.')
  let rest := signed.2.dropWhile (· ≠ '.')
  match rest with
  | [] =>
    if ip ≠ [] ∧ ip.all Char.isDigit then some (signed.1 * natOfDigits ip)
    else none
  | '.' :: fp =>
    if (ip ≠ [] ∨ fp ≠ []) ∧ ip.all Char.isDigit ∧ fp.all Char.isDigit then
      some (signed.1 * ((natOfDigits ip : ℚ) + natOfDigits fp / 10 ^ fp.length))
    else none
  | _ :: _ => none

/-- Python `float(x)`: numbers pass through, bools become `0`/`1`,
strings are parsed as decimal literals (`ValueError` on failure), and
every other type raises a `TypeError`. -/
def pyFloat : Json → Except String ℚ
  | Json.num q => Except.ok q
  | Json.bool b => Except.ok (if b then 1 else 0)
  | Json.str s =>
    match parseDecimal s with
    | some q => Except.ok q
    | none => Except.error "ValueError: could not convert string to float"
  | _ => Except.error "TypeError: float() argument"

/-- Python `int(s)` on a string: optional sign then digits, otherwise a
`ValueError`. -/
def pyInt (s : String) : Except String Int :=
  let cs := s.toList
  let signed : Int × List Char :=
    match cs with
    | '-' :: r => (-1, r)
    | '+' :: r => (1, r)
    | _ => (1, cs)
  if signed.2 ≠ [] ∧ signed.2.all Char.isDigit then
    Except.ok (signed.1 * natOfDigits signed.2)
  else Except.error "ValueError: invalid literal for int()"

/-- Truthiness of `request.args.get(name)`: `None` (absent) and the empty
string are falsy. -/
def strTruthy : Option String → Bool
  | none => false
  | some s => decide (s ≠ "")

/-! ## Python dicts and sets as insertion-ordered association lists -/

/-- `d.get(k)` on an insertion-ordered dict. -/
def dictGet {κ α : Type} [DecidableEq κ] : List (κ × α) → κ → Option α
  | [], _ => none
  | (k0, v) :: rest, k => if k0 = k then some v else dictGet rest k

/-- `d[k] = d.get(k, 0) + q`: add to the existing slot in place, or
append a fresh key at the end (Python dicts preserve insertion order). -/
def dictAdd {κ : Type} [DecidableEq κ] : List (κ × ℚ) → κ → ℚ → List (κ × ℚ)
  | [], k, q => [(k, q)]
  | (k0, v) :: rest, k, q =>
    if k0 = k then (k0, v + q) :: rest else (k0, v) :: dictAdd rest k q

/-- `d[k] = v`: overwrite the existing slot in place, or append. -/
def dictSet {κ α : Type} [DecidableEq κ] : List (κ × α) → κ → α → List (κ × α)
  | [], k, v => [(k, v)]
  | (k0, v0) :: rest, k, v =>
    if k0 = k then (k0, v) :: rest else (k0, v0) :: dictSet rest k v

/-- `s.add(k)` on a set, modelled as a duplicate-free list (only the
cardinality of these sets is ever reported). -/
def setAdd {κ : Type} [DecidableEq κ] (s : List κ) (k : κ) : List κ :=
  if k ∈ s then s else s ++ [k]

/-! ## Replenishment summary aggregation (src/app.py lines 203-273) -/

/-- One iteration of the order-summary loop (src/app.py lines 204-209):
skip rows with a falsy `item_id__code`, coerce `ord_qty` with `float`
(default `0` when absent), and add into the per-item total. -/
def orderSummaryStep (acc : List (Json × ℚ)) (row : Json) :
    Except String (List (Json × ℚ)) := do
  let item ← pyGet row "item_id__code"
  match item with
  | some j =>
    if pyTruthy j then do
      let v ← pyGetD row "ord_qty" (Json.num 0)
      let qty ← pyFloat v
      return dictAdd acc j qty
    else return acc
  | none => return acc

/-- `order_summary` (src/app.py lines 203-209). -/
def orderSummary (rows : List Json) : Except String (List (Json × ℚ)) :=
  rows.foldlM orderSummaryStep []

/-- One iteration of the on-hand dict comprehension (src/app.py lines
231-232): rows with a falsy `item_id__item_alternate_code` are filtered
out, and a duplicate key OVERWRITES the earlier value (dict
comprehension semantics), unlike the other two summaries. -/
def onhandSummaryStep (acc : List (Json × ℚ)) (row : Json) :
    Except String (List (Json × ℚ)) := do
  let item ← pyGet row "item_id__item_alternate_code"
  match item with
  | some j =>
    if pyTruthy j then do
      let v ← pyGetD row "curr_qty" (Json.num 0)
      let qty ← pyFloat v
      return dictSet acc j qty
    else return acc
  | none => return acc

/-- `onhand_summary` (src/app.py lines 231-232). -/
def onhandSummary (rows : List Json) : Except String (List (Json × ℚ)) :=
  rows.foldlM onhandSummaryStep []

/-- One iteration of the movement-request loop (src/app.py lines
250-254).  There is no truthiness check on the item here: a missing
`item_id__code` contributes under the key `None` (`Json.null`). -/
def moSummaryStep (acc : List (Json × ℚ)) (row : Json) :
    Except String (List (Json × ℚ)) := do
  let item ← pyGet row "item_id__code"
  let v ← pyGetD row "req_qty" (Json.num 0)
  let qty ← pyFloat v
  return dictAdd acc (item.getD Json.null) qty

/-- `mo_summary` (src/app.py lines 250-254). -/
def moSummary (rows : List Json) : Except String (List (Json × ℚ)) :=
  rows.foldlM moSummaryStep []

/-- `",".join(order_summary.keys())` (src/app.py line 214) raises a
`TypeError` when any key is not a string; on success every key of the
summary is a string, which this function also returns keyed as strings
for the final report. -/
def keysAsStrings : List (Json × ℚ) → Except String (List (String × ℚ))
  | [] => Except.ok []
  | (Json.str s, v) :: rest => do
    let r ← keysAsStrings rest
    return (s, v) :: r
  | _ :: _ => Except.error "TypeError: sequence item 0: expected str instance"

/-- One row of the final replenishment report (src/app.py lines 261-266). -/
structure ReportRow where
  item : String
  ordered_qty : ℚ
  onhand_qty : ℚ
  pending_mo_qty : ℚ
  deriving DecidableEq

/-- The unsorted `final_rows` loop (src/app.py lines 259-266): one row
per order-summary item, on-hand and movement quantities defaulting to
zero when the item is absent from those summaries. -/
def finalRows (osS : List (String × ℚ)) (oh mo : List (Json × ℚ)) :
    List ReportRow :=
  osS.map fun kv =>
    { item := kv.1
      ordered_qty := kv.2
      onhand_qty := (dictGet oh (Json.str kv.1)).getD 0
      pending_mo_qty := (dictGet mo (Json.str kv.1)).getD 0 }

/-- The sort key of src/app.py line 272: ascending by item code. -/
def rowLe (a b : ReportRow) : Prop := a.item ≤ b.item

instance : DecidableRel rowLe := fun a b =>
  inferInstanceAs (Decidable (a.item ≤ b.item))

instance : IsTotal ReportRow rowLe := ⟨fun a b => le_total a.item b.item⟩

instance : IsTrans ReportRow rowLe := ⟨fun _ _ _ h1 h2 => le_trans h1 h2⟩

/-- `sorted(final_rows, key=lambda x: x["item"])` (src/app.py line 272). -/
def sortRows (rows : List ReportRow) : List ReportRow :=
  List.insertionSort rowLe rows

/-! ## Dict update lemmas -/

/-- Adding under key `k` yields the running total plus the new quantity. -/
theorem dictGet_dictAdd_self {κ : Type} [DecidableEq κ]
    (m : List (κ × ℚ)) (k : κ) (q : ℚ) :
    dictGet (dictAdd m k q) k = some ((dictGet m k).getD 0 + q) := by
  induction m with
  | nil => simp [dictAdd, dictGet]
  | cons kv rest ih =>
    obtain ⟨k0, v⟩ := kv
    by_cases h : k0 = k
    · subst h; simp [dictAdd, dictGet]
    · simp [dictAdd, dictGet, h, ih]

/-- Setting under key `k` discards the running value. -/
theorem dictGet_dictSet_self {κ α : Type} [DecidableEq κ]
    (m : List (κ × α)) (k : κ) (v : α) :
    dictGet (dictSet m k v) k = some v := by
  induction m with
  | nil => simp [dictSet, dictGet]
  | cons kv rest ih =>
    obtain ⟨k0, v0⟩ := kv
    by_cases h : k0 = k
    · subst h; simp [dictSet, dictGet]
    · simp [dictSet, dictGet, h, ih]

/-- A claim-C3 counterexample: two on-hand rows for the same item code
`"A"` with quantities `5` and `3`.  The on-hand summary keeps only the
later quantity `3`; summation would have given `8`.  The per-join-key
summaries therefore do not all merge duplicates by summing. -/
theorem onhandSummary_overwrites_duplicates :
    onhandSummary
      [Json.obj [("item_id__item_alternate_code", Json.str "A"),
                 ("curr_qty", Json.num 5)],
       Json.obj [("item_id__item_alternate_code", Json.str "A"),
                 ("curr_qty", Json.num 3)]] =
      Except.ok [(Json.str "A", 3)] ∧ (3 : ℚ) ≠ 5 + 3 := by
  refine ⟨rfl, by norm_num⟩

/-- C3 amended: in the replenishment aggregation the ordered-quantity
and movement-request summaries merge a duplicate join key by adding the
new quantity to the running total, while the on-hand summary resolves a
duplicate join key by overwriting with the later row's quantity. -/
theorem replen_summaries_merge_policy
    (orows : List Json) (orow : Json) (om : List (Json × ℚ))
    (oj ov : Json) (oq : ℚ)
    (ho1 : orderSummary orows = Except.ok om)
    (ho2 : pyGet orow "item_id__code" = Except.ok (some oj))
    (ho3 : pyTruthy oj = true)
    (ho4 : pyGetD orow "ord_qty" (Json.num 0) = Except.ok ov)
    (ho5 : pyFloat ov = Except.ok oq)
    (hrows : List Json) (hrow : Json) (hm : List (Json × ℚ))
    (hj hv : Json) (hq : ℚ)
    (hh1 : onhandSummary hrows = Except.ok hm)
    (hh2 : pyGet hrow "item_id__item_alternate_code" = Except.ok (some hj))
    (hh3 : pyTruthy hj = true)
    (hh4 : pyGetD hrow "curr_qty" (Json.num 0) = Except.ok hv)
    (hh5 : pyFloat hv = Except.ok hq)
    (mrows : List Json) (mrow : Json) (mm : List (Json × ℚ))
    (mj mv : Json) (mq : ℚ)
    (hm1 : moSummary mrows = Except.ok mm)
    (hm2 : pyGet mrow "item_id__code" = Except.ok (some mj))
    (hm4 : pyGetD mrow "req_qty" (Json.num 0) = Except.ok mv)
    (hm5 : pyFloat mv = Except.ok mq) :
    (orderSummary (orows ++ [orow]) = Except.ok (dictAdd om oj oq) ∧
      dictGet (dictAdd om oj oq) oj = some ((dictGet om oj).getD 0 + oq)) ∧
    (moSummary (mrows ++ [mrow]) = Except.ok (dictAdd mm mj mq) ∧
      dictGet (dictAdd mm mj mq) mj = some ((dictGet mm mj).getD 0 + mq)) ∧
    (onhandSummary (hrows ++ [hrow]) = Except.ok (dictSet hm hj hq) ∧
      dictGet (dictSet hm hj hq) hj = some hq) := by
  refine ⟨⟨?_, dictGet_dictAdd_self om oj oq⟩,
          ⟨?_, dictGet_dictAdd_self mm mj mq⟩,
          ⟨?_, dictGet_dictSet_self hm hj hq⟩⟩
  · simp only [orderSummary] at ho1 ⊢
    rw [List.foldlM_append, ho1]
    simp [orderSummaryStep, ho2, ho3, ho4, ho5, bind, Except.bind,
      Functor.map, Except.map, pure, Except.pure]
  · simp only [moSummary] at hm1 ⊢
    rw [List.foldlM_append, hm1]
    simp [moSummaryStep, hm2, hm4, hm5, bind, Except.bind,
      Functor.map, Except.map, pure, Except.pure]
  · simp only [onhandSummary] at hh1 ⊢
    rw [List.foldlM_append, hh1]
    simp [onhandSummaryStep, hh2, hh3, hh4, hh5, bind, Except.bind,
      Functor.map, Except.map, pure, Except.pure]

/-- Witness for the amended C3 theorem at concrete duplicate rows. -/
theorem replen_summaries_merge_policy_witness :
    (orderSummary
        [Json.obj [("item_id__code", Json.str "A"), ("ord_qty", Json.num 5)],
         Json.obj [("item_id__code", Json.str "A"), ("ord_qty", Json.num 3)]] =
      Except.ok [(Json.str "A", 5 + 3)]) ∧
    (moSummary
        [Json.obj [("item_id__code", Json.str "A"), ("req_qty", Json.num 2)],
         Json.obj [("item_id__code", Json.str "A"), ("req_qty", Json.num 7)]] =
      Except.ok [(Json.str "A", 2 + 7)]) ∧
    (onhandSummary
        [Json.obj [("item_id__item_alternate_code", Json.str "A"),
                   ("curr_qty", Json.num 5)],
         Json.obj [("item_id__item_alternate_code", Json.str "A"),
                   ("curr_qty", Json.num 3)]] =
      Except.ok [(Json.str "A", 3)]) := by
  have h := replen_summaries_merge_policy
    [Json.obj [("item_id__code", Json.str "A"), ("ord_qty", Json.num 5)]]
    (Json.obj [("item_id__code", Json.str "A"), ("ord_qty", Json.num 3)])
    [(Json.str "A", 5)] (Json.str "A") (Json.num 3) 3
    rfl rfl rfl rfl rfl
    [Json.obj [("item_id__item_alternate_code", Json.str "A"),
               ("curr_qty", Json.num 5)]]
    (Json.obj [("item_id__item_alternate_code", Json.str "A"),
               ("curr_qty", Json.num 3)])
    [(Json.str "A", 5)] (Json.str "A") (Json.num 3) 3
    rfl rfl rfl rfl rfl
    [Json.obj [("item_id__code", Json.str "A"), ("req_qty", Json.num 2)]]
    (Json.obj [("item_id__code", Json.str "A"), ("req_qty", Json.num 7)])
    [(Json.str "A", 2)] (Json.str "A") (Json.num 7) 7
    rfl rfl rfl rfl
  refine ⟨?_, ?_, ?_⟩
  · have := h.1.1
    simpa [dictAdd] using this
  · have := h.2.1.1
    simpa [dictAdd] using this
  · have := h.2.2.1
    simpa [dictSet] using this

/-! ## Key-set lemmas for the aggregation summaries -/

/-- A dict lookup misses exactly when the key is not among the keys. -/
theorem dictGet_eq_none_iff {κ α : Type} [DecidableEq κ]
    (m : List (κ × α)) (k : κ) :
    dictGet m k = none ↔ k ∉ m.map Prod.fst := by
  induction m with
  | nil => simp [dictGet]
  | cons kv rest ih =>
    obtain ⟨k0, v⟩ := kv
    by_cases h : k0 = k
    · subst h; simp [dictGet]
    · simp only [dictGet, if_neg h, List.map_cons, List.mem_cons, ih]
      constructor
      · rintro hk (rfl | hm)
        · exact h rfl
        · exact hk hm
      · intro hk hm
        exact hk (Or.inr hm)

/-- Keys after `dictAdd`: unchanged when the key was present, appended
otherwise. -/
theorem dictAdd_keys {κ : Type} [DecidableEq κ]
    (m : List (κ × ℚ)) (k : κ) (q : ℚ) :
    (dictAdd m k q).map Prod.fst =
      if dictGet m k = none then m.map Prod.fst ++ [k] else m.map Prod.fst := by
  induction m with
  | nil => simp [dictAdd, dictGet]
  | cons kv rest ih =>
    obtain ⟨k0, v⟩ := kv
    by_cases h : k0 = k
    · subst h; simp [dictAdd, dictGet]
    · simp only [dictAdd, if_neg h, List.map_cons, dictGet, ih]
      by_cases hr : dictGet rest k = none <;> simp [hr]

/-- Keys after `dictSet`: unchanged when the key was present, appended
otherwise. -/
theorem dictSet_keys {κ α : Type} [DecidableEq κ] [DecidableEq α]
    (m : List (κ × α)) (k : κ) (v : α) :
    (dictSet m k v).map Prod.fst =
      if dictGet m k = none then m.map Prod.fst ++ [k] else m.map Prod.fst := by
  induction m with
  | nil => simp [dictSet, dictGet]
  | cons kv rest ih =>
    obtain ⟨k0, v0⟩ := kv
    by_cases h : k0 = k
    · subst h; simp [dictSet, dictGet]
    · simp only [dictSet, if_neg h, List.map_cons, dictGet, ih]
      by_cases hr : dictGet rest k = none <;> simp [hr]

/-- `dictAdd` keeps the keys duplicate-free. -/
theorem dictAdd_nodupKeys {κ : Type} [DecidableEq κ]
    (m : List (κ × ℚ)) (k : κ) (q : ℚ)
    (h : (m.map Prod.fst).Nodup) : ((dictAdd m k q).map Prod.fst).Nodup := by
  rw [dictAdd_keys]
  by_cases hn : dictGet m k = none
  · have hk : k ∉ m.map Prod.fst := (dictGet_eq_none_iff m k).mp hn
    simp [hn, List.nodup_append, h, hk]
  · simp [hn, h]

/-- Structure of one order-summary iteration that succeeds: the
accumulator is unchanged (skipped row) or gains the row's quantity under
its truthy item key. -/
theorem orderSummaryStep_cases (acc : List (Json × ℚ)) (row : Json)
    (acc2 : List (Json × ℚ)) (h : orderSummaryStep acc row = Except.ok acc2) :
    acc2 = acc ∨ ∃ j q, pyTruthy j = true ∧ acc2 = dictAdd acc j q := by
  unfold orderSummaryStep at h
  cases hg : pyGet row "item_id__code" with
  | error e => simp [hg, bind, Except.bind] at h
  | ok item =>
    cases item with
    | none =>
      simp [hg, bind, Except.bind, pure, Except.pure] at h
      exact Or.inl h.symm
    | some j =>
      by_cases ht : pyTruthy j
      · cases hv : pyGetD row "ord_qty" (Json.num 0) with
        | error e => simp [hg, ht, hv, bind, Except.bind] at h
        | ok v =>
          cases hq : pyFloat v with
          | error e =>
            simp [hg, ht, hv, hq, bind, Except.bind, Functor.map, Except.map] at h
          | ok q =>
            simp [hg, ht, hv, hq, bind, Except.bind, Functor.map, Except.map,
              pure, Except.pure] at h
            exact Or.inr ⟨j, q, ht, h.symm⟩
      · simp [hg, ht, bind, Except.bind, pure, Except.pure] at h
        exact Or.inl h.symm

/-- Order-summary loop invariant: keys stay duplicate-free. -/
theorem orderSummary_go_nodupKeys (rows : List Json) :
    ∀ (acc m : List (Json × ℚ)),
      List.foldlM orderSummaryStep acc rows = Except.ok m →
      (acc.map Prod.fst).Nodup → (m.map Prod.fst).Nodup := by
  induction rows with
  | nil =>
    intro acc m h hn
    simp [pure, Except.pure] at h
    exact h ▸ hn
  | cons row rest ih =>
    intro acc m h hn
    rw [List.foldlM_cons] at h
    cases hs : orderSummaryStep acc row with
    | error e => rw [hs] at h; simp [bind, Except.bind] at h
    | ok acc2 =>
      rw [hs] at h
      simp only [bind, Except.bind] at h
      refine ih acc2 m h ?_
      rcases orderSummaryStep_cases acc row acc2 hs with rfl | ⟨j, q, _, rfl⟩
      · exact hn
      · exact dictAdd_nodupKeys acc j q hn

/-- The per-item order summary never carries a duplicate item key. -/
theorem orderSummary_nodupKeys (rows : List Json) (m : List (Json × ℚ))
    (h : orderSummary rows = Except.ok m) : (m.map Prod.fst).Nodup :=
  orderSummary_go_nodupKeys rows [] m h (by simp)

/-- A successful `",".join` pass: the summary was exactly its
string-keyed image. -/
theorem keysAsStrings_eq (m : List (Json × ℚ)) (mS : List (String × ℚ))
    (h : keysAsStrings m = Except.ok mS) :
    m = mS.map fun kv => (Json.str kv.1, kv.2) := by
  induction m generalizing mS with
  | nil =>
    simp [keysAsStrings, pure, Except.pure] at h
    simp [← h]
  | cons kv rest ih =>
    obtain ⟨k0, v0⟩ := kv
    cases k0 with
    | str s =>
      cases hr : keysAsStrings rest with
      | error e => simp [keysAsStrings, hr, bind, Except.bind] at h
      | ok rS =>
        simp only [keysAsStrings, hr, bind, Except.bind, pure, Except.pure,
          Except.ok.injEq] at h
        subst h
        simp [ih rS hr]
    | null => simp [keysAsStrings] at h
    | bool b => simp [keysAsStrings] at h
    | num q => simp [keysAsStrings] at h
    | arr l => simp [keysAsStrings] at h
    | obj kvs => simp [keysAsStrings] at h

/-- Structure of one on-hand comprehension iteration that succeeds. -/
theorem onhandSummaryStep_cases (acc : List (Json × ℚ)) (row : Json)
    (acc2 : List (Json × ℚ)) (h : onhandSummaryStep acc row = Except.ok acc2) :
    acc2 = acc ∨ ∃ j q,
      pyGet row "item_id__item_alternate_code" = Except.ok (some j) ∧
      pyTruthy j = true ∧ acc2 = dictSet acc j q := by
  unfold onhandSummaryStep at h
  cases hg : pyGet row "item_id__item_alternate_code" with
  | error e => simp [hg, bind, Except.bind] at h
  | ok item =>
    cases item with
    | none =>
      simp [hg, bind, Except.bind, pure, Except.pure] at h
      exact Or.inl h.symm
    | some j =>
      by_cases ht : pyTruthy j
      · cases hv : pyGetD row "curr_qty" (Json.num 0) with
        | error e => simp [hg, ht, hv, bind, Except.bind] at h
        | ok v =>
          cases hq : pyFloat v with
          | error e =>
            simp [hg, ht, hv, hq, bind, Except.bind, Functor.map, Except.map] at h
          | ok q =>
            simp [hg, ht, hv, hq, bind, Except.bind, Functor.map, Except.map,
              pure, Except.pure] at h
            exact Or.inr ⟨j, q, rfl, ht, h.symm⟩
      · simp [hg, ht, bind, Except.bind, pure, Except.pure] at h
        exact Or.inl h.symm

/-- Structure of one movement-request iteration that succeeds. -/
theorem moSummaryStep_cases (acc : List (Json × ℚ)) (row : Json)
    (acc2 : List (Json × ℚ)) (h : moSummaryStep acc row = Except.ok acc2) :
    ∃ it q, pyGet row "item_id__code" = Except.ok it ∧
      acc2 = dictAdd acc (it.getD Json.null) q := by
  unfold moSummaryStep at h
  cases hg : pyGet row "item_id__code" with
  | error e => simp [hg, bind, Except.bind] at h
  | ok item =>
    cases hv : pyGetD row "req_qty" (Json.num 0) with
    | error e => simp [hg, hv, bind, Except.bind] at h
    | ok v =>
      cases hq : pyFloat v with
      | error e =>
        simp [hg, hv, hq, bind, Except.bind, Functor.map, Except.map] at h
      | ok q =>
        simp [hg, hv, hq, bind, Except.bind, Functor.map, Except.map,
          pure, Except.pure] at h
        exact ⟨item, q, rfl, h.symm⟩

/-- Every key of the on-hand summary originates in some on-hand row as a
truthy `item_id__item_alternate_code` value. -/
theorem onhandSummary_go_keys (rows : List Json) :
    ∀ acc m, List.foldlM onhandSummaryStep acc rows = Except.ok m →
      ∀ k, k ∈ m.map Prod.fst → k ∈ acc.map Prod.fst ∨
        ∃ row ∈ rows,
          pyGet row "item_id__item_alternate_code" = Except.ok (some k) := by
  induction rows with
  | nil =>
    intro acc m h k hk
    simp [pure, Except.pure] at h
    exact Or.inl (h ▸ hk)
  | cons row rest ih =>
    intro acc m h k hk
    rw [List.foldlM_cons] at h
    cases hs : onhandSummaryStep acc row with
    | error e => rw [hs] at h; simp [bind, Except.bind] at h
    | ok acc2 =>
      rw [hs] at h
      simp only [bind, Except.bind] at h
      rcases ih acc2 m h k hk with hacc2 | ⟨row2, hrow2, hget2⟩
      · rcases onhandSummaryStep_cases acc row acc2 hs with rfl | ⟨j, q, hg, _, rfl⟩
        · exact Or.inl hacc2
        · rw [dictSet_keys] at hacc2
          by_cases hd : dictGet acc j = none
          · rw [if_pos hd] at hacc2
            rcases List.mem_append.mp hacc2 with hl | hr
            · exact Or.inl hl
            · simp at hr
              exact Or.inr ⟨row, List.mem_cons_self row rest, hr ▸ hg⟩
          · rw [if_neg hd] at hacc2
            exact Or.inl hacc2
      · exact Or.inr ⟨row2, List.mem_cons_of_mem row hrow2, hget2⟩

/-- Every key of the movement-request summary originates in some
movement-request row (possibly as `None`, giving the `Json.null` key). -/
theorem moSummary_go_keys (rows : List Json) :
    ∀ acc m, List.foldlM moSummaryStep acc rows = Except.ok m →
      ∀ k, k ∈ m.map Prod.fst → k ∈ acc.map Prod.fst ∨
        ∃ row ∈ rows, ∃ it, pyGet row "item_id__code" = Except.ok it ∧
          k = it.getD Json.null := by
  induction rows with
  | nil =>
    intro acc m h k hk
    simp [pure, Except.pure] at h
    exact Or.inl (h ▸ hk)
  | cons row rest ih =>
    intro acc m h k hk
    rw [List.foldlM_cons] at h
    cases hs : moSummaryStep acc row with
    | error e => rw [hs] at h; simp [bind, Except.bind] at h
    | ok acc2 =>
      rw [hs] at h
      simp only [bind, Except.bind] at h
      rcases ih acc2 m h k hk with hacc2 | ⟨row2, hrow2, it2, hget2, hk2⟩
      · rcases moSummaryStep_cases acc row acc2 hs with ⟨it, q, hg, rfl⟩
        rw [dictAdd_keys] at hacc2
        by_cases hd : dictGet acc (it.getD Json.null) = none
        · rw [if_pos hd] at hacc2
          rcases List.mem_append.mp hacc2 with hl | hr
          · exact Or.inl hl
          · simp at hr
            exact Or.inr ⟨row, List.mem_cons_self row rest, it, hg, hr⟩
        · rw [if_neg hd] at hacc2
          exact Or.inl hacc2
      · exact Or.inr ⟨row2, List.mem_cons_of_mem row hrow2, it2, hget2, hk2⟩

/-- C2: given the three fetched result sets of /replenSummary, every
item code of the per-item order summary appears exactly once as `item`
in the final report (whatever the other two result sets contain), an
item no on-hand row mentions gets `onhand_qty = 0` and an item no
movement-request row mentions gets `pending_mo_qty = 0`, and the rows
come out sorted ascending by item code. -/
theorem replen_final_rows_properties
    (orows ohrows morows : List Json)
    (os : List (Json × ℚ)) (osS : List (String × ℚ)) (oh mo : List (Json × ℚ))
    (h1 : orderSummary orows = Except.ok os)
    (h2 : keysAsStrings os = Except.ok osS)
    (h3 : onhandSummary ohrows = Except.ok oh)
    (h4 : moSummary morows = Except.ok mo) :
    (∀ k : String,
      ((sortRows (finalRows osS oh mo)).map ReportRow.item).count k =
        if k ∈ osS.map Prod.fst then 1 else 0) ∧
    (∀ r ∈ sortRows (finalRows osS oh mo),
      ((∀ row ∈ ohrows,
          pyGet row "item_id__item_alternate_code" ≠
            Except.ok (some (Json.str r.item))) → r.onhand_qty = 0) ∧
      ((∀ row ∈ morows,
          pyGet row "item_id__code" ≠ Except.ok (some (Json.str r.item))) →
        r.pending_mo_qty = 0)) ∧
    List.Sorted rowLe (sortRows (finalRows osS oh mo)) := by
  have hperm := List.perm_insertionSort rowLe (finalRows osS oh mo)
  have hmap : (finalRows osS oh mo).map ReportRow.item = osS.map Prod.fst := by
    simp [finalRows, List.map_map]
  have hosS : (osS.map Prod.fst).Nodup := by
    have hnd := orderSummary_nodupKeys orows os h1
    rw [keysAsStrings_eq os osS h2, List.map_map] at hnd
    refine List.Nodup.of_map Json.str ?_
    rw [List.map_map]
    exact hnd
  refine ⟨?_, ?_, List.sorted_insertionSort rowLe (finalRows osS oh mo)⟩
  · intro k
    simp only [sortRows]
    rw [(hperm.map ReportRow.item).count_eq, hmap]
    by_cases hk : k ∈ osS.map Prod.fst
    · rw [if_pos hk]
      exact List.count_eq_one_of_mem hosS hk
    · rw [if_neg hk]
      exact List.count_eq_zero_of_not_mem hk
  · intro r hr
    have hr2 : r ∈ finalRows osS oh mo := hperm.mem_iff.mp hr
    rcases List.mem_map.mp hr2 with ⟨kv, _, rfl⟩
    constructor
    · intro habsent
      by_cases hd : dictGet oh (Json.str kv.1) = none
      · simp [finalRows, hd]
      · exfalso
        have hmem : Json.str kv.1 ∈ oh.map Prod.fst := by
          by_contra hmm
          exact hd ((dictGet_eq_none_iff oh (Json.str kv.1)).mpr hmm)
        rcases onhandSummary_go_keys ohrows [] oh h3 (Json.str kv.1) hmem with
          hempty | ⟨row, hrow, hget⟩
        · simp at hempty
        · exact habsent row hrow hget
    · intro habsent
      by_cases hd : dictGet mo (Json.str kv.1) = none
      · simp [finalRows, hd]
      · exfalso
        have hmem : Json.str kv.1 ∈ mo.map Prod.fst := by
          by_contra hmm
          exact hd ((dictGet_eq_none_iff mo (Json.str kv.1)).mpr hmm)
        rcases moSummary_go_keys morows [] mo h4 (Json.str kv.1) hmem with
          hempty | ⟨row, hrow, it, hget, hit⟩
        · simp at hempty
        · cases it with
          | none => simp at hit
          | some j => exact habsent row hrow (hit ▸ hget)

/-- Witness for C2 at the specification's worked fixture: orders
A:5, A:3, B:2 with empty on-hand and movement results give items A and B
exactly once each and unseen item C zero times. -/
theorem replen_final_rows_properties_witness :
    ((sortRows (finalRows [("A", 5 + 3), ("B", 2)] [] [])).map
        ReportRow.item).count "A" = 1 ∧
    ((sortRows (finalRows [("A", 5 + 3), ("B", 2)] [] [])).map
        ReportRow.item).count "C" = 0 := by
  have h := replen_final_rows_properties
    [Json.obj [("item_id__code", Json.str "A"), ("ord_qty", Json.num 5)],
     Json.obj [("item_id__code", Json.str "A"), ("ord_qty", Json.num 3)],
     Json.obj [("item_id__code", Json.str "B"), ("ord_qty", Json.num 2)]]
    [] []
    [(Json.str "A", 5 + 3), (Json.str "B", 2)] [("A", 5 + 3), ("B", 2)] [] []
    rfl rfl rfl rfl
  refine ⟨?_, ?_⟩
  · have := h.1 "A"
    simpa using this
  · have := h.1 "C"
    simpa using this

/-! ## Upstream HTTP responses and endpoint handlers

A `requests.get` outcome is passed to each handler as
`Except String Resp`: `Except.error e` models the call raising (timeout,
connection failure), `Except.ok r` a delivered HTTP response.  Handlers
return `Except String Json`: `Except.ok` is the JSON body the endpoint
serialises, `Except.error` an exception escaping the handler unhandled.
Wall-clock derived date strings are abstracted as parameters. -/

/-- An upstream HTTP response: status code, raw body text, and the
decoded JSON body (`none` when the body is not JSON). -/
structure Resp where
  status : ℕ
  text : String
  body : Option Json

/-- Python `str()` as used in f-string interpolation.  Faithful for
strings, `None` and booleans — the only values the service interpolates
(`delivery_date` is an ISO date string); numbers use the rational
printer as a stand-in for Python's numeric repr. -/
def pyStr : Json → String
  | Json.str s => s
  | Json.null => "None"
  | Json.bool b => if b then "True" else "False"
  | Json.num q => toString q
  | Json.arr _ => "[...]"
  | Json.obj _ => "dict"

/-- `/getOrder` (src/app.py lines 76-102).  The single upstream call and
the response shaping sit inside `try/except`, so an upstream exception
becomes a structured error body. -/
def get_order (from_date to_date facility_code : Option String)
    (upstream : Except String Resp) : Except String Json :=
  if !(strTruthy from_date && strTruthy to_date && strTruthy facility_code) then
    Except.ok (Json.obj [("status", Json.str "error"),
      ("message", Json.str "Missing required params")])
  else
    match upstream with
    | Except.error e =>
      Except.ok (Json.obj [("status", Json.str "error"), ("message", Json.str e)])
    | Except.ok r =>
      let rows := safe_wms_json r.body
      Except.ok (Json.obj [("status", Json.str "success"),
        ("rows", Json.arr rows), ("noData", Json.bool rows.isEmpty)])

/-- `/getOnhand` of src/app.py (lines 108-132).  Identical shape to
`/getOrder`; note it never looks at the HTTP status code. -/
def get_onhand (items facility : Option String)
    (upstream : Except String Resp) : Except String Json :=
  if !(strTruthy items && strTruthy facility) then
    Except.ok (Json.obj [("status", Json.str "error"),
      ("message", Json.str "Missing required params")])
  else
    match upstream with
    | Except.error e =>
      Except.ok (Json.obj [("status", Json.str "error"), ("message", Json.str e)])
    | Except.ok r =>
      let rows := safe_wms_json r.body
      Except.ok (Json.obj [("status", Json.str "success"),
        ("rows", Json.arr rows), ("noData", Json.bool rows.isEmpty)])

/-- `/existMoveReq` (src/app.py lines 138-163). -/
def exist_move_req (items facility : Option String)
    (upstream : Except String Resp) : Except String Json :=
  if !(strTruthy items && strTruthy facility) then
    Except.ok (Json.obj [("status", Json.str "error"),
      ("message", Json.str "Missing required params")])
  else
    match upstream with
    | Except.error e =>
      Except.ok (Json.obj [("status", Json.str "error"), ("message", Json.str e)])
    | Except.ok r =>
      let rows := safe_wms_json r.body
      Except.ok (Json.obj [("status", Json.str "success"),
        ("rows", Json.arr rows), ("noData", Json.bool rows.isEmpty)])

namespace Getonhand

/-- `/getOnhand` of src/getonhand.py (lines 29-94).  Unlike the app.py
handlers this one branches on the HTTP status code: 404 becomes a valid
empty result, a 2xx body that fails to decode becomes a distinct
non-JSON error, and any other status is reported with code and raw
body.  The raw decoded body is returned as `rows` without
normalization. -/
def get_onhand (items facility : Option String)
    (upstream : Except String Resp) : Except String Json :=
  if !(strTruthy items && strTruthy facility) then
    Except.ok (Json.obj [("status", Json.str "error"),
      ("message", Json.str "Missing required params: items, facility")])
  else
    match upstream with
    | Except.error e =>
      Except.ok (Json.obj [("status", Json.str "error"), ("message", Json.str e)])
    | Except.ok r =>
      if r.status = 404 then
        Except.ok (Json.obj [("status", Json.str "success"),
          ("noData", Json.bool true), ("rows", Json.arr [])])
      else if 200 ≤ r.status ∧ r.status < 300 then
        match r.body with
        | none =>
          Except.ok (Json.obj [("status", Json.str "error"),
            ("message", Json.str "WMS returned non-JSON")])
        | some data =>
          Except.ok (Json.obj [("status", Json.str "success"),
            ("noData", Json.bool (!pyTruthy data)), ("rows", data)])
      else
        Except.ok (Json.obj [("status", Json.str "error"),
          ("httpStatus", Json.num r.status), ("body", Json.str r.text)])

end Getonhand

/-- One serialized row of the replenishment report (src/app.py lines
261-266). -/
def reportRowToJson (r : ReportRow) : Json :=
  Json.obj [("item", Json.str r.item), ("ordered_qty", Json.num r.ordered_qty),
    ("onhand_qty", Json.num r.onhand_qty),
    ("pending_mo_qty", Json.num r.pending_mo_qty)]

/-- `/replenSummary` (src/app.py lines 169-273).  `int(days)` (line 178)
and the three upstream calls (lines 199, 227, 246) are NOT wrapped in
`try/except`, so their exceptions escape (`Except.error`), as do the
unguarded `float` coercions of the three summary loops and the
`",".join` over the item keys (line 214, which also forces every item
key to be a string before the final report is built). -/
def replen_summary (days facility : Option String) (from_date to_date : String)
    (ordersRes onhandRes moRes : Except String Resp) : Except String Json := do
  if !(strTruthy days && strTruthy facility) then
    return Json.obj [("status", Json.str "error"),
      ("message", Json.str "Missing required params")]
  let _d ← pyInt (days.getD "")
  let ores ← ordersRes
  let os ← orderSummary (safe_wms_json ores.body)
  if os.isEmpty then
    return Json.obj [("status", Json.str "success"), ("rows", Json.arr [])]
  let osS ← keysAsStrings os
  let ohres ← onhandRes
  let oh ← onhandSummary (safe_wms_json ohres.body)
  let mres ← moRes
  let mo ← moSummary (safe_wms_json mres.body)
  return Json.obj [("status", Json.str "success"),
    ("from_date", Json.str from_date), ("to_date", Json.str to_date),
    ("rows", Json.arr ((sortRows (finalRows osS oh mo)).map reportRowToJson))]

/-- The per-row unit coercion of /shippingKPI (src/app.py lines
330-334): `try: shipped = float(row.get("units_shipped") or 0)
except: shipped = 0`.  Total by construction — every failure inside the
`try`, including a non-dict row, degrades to `0`. -/
def shippedUnits (row : Json) : ℚ :=
  match row with
  | Json.obj kvs =>
    let v := (lookupKey kvs "units_shipped").getD Json.null
    let v2 := if pyTruthy v then v else Json.num 0
    match pyFloat v2 with
    | Except.ok q => q
    | Except.error _ => 0
  | _ => 0

/-- The per-row unit coercion of /receivingKPI and /receivingKPI1
(src/app.py lines 418-421 and 646-649), reading `adj_qty`. -/
def receivedUnits (row : Json) : ℚ :=
  match row with
  | Json.obj kvs =>
    let v := (lookupKey kvs "adj_qty").getD Json.null
    let v2 := if pyTruthy v then v else Json.num 0
    match pyFloat v2 with
    | Except.ok q => q
    | Except.error _ => 0
  | _ => 0

/-- One iteration of the shipping KPI loop (src/app.py lines 328-346):
guarded unit coercion, then unguarded `row.get` calls for the unique
order and container sets. -/
def shippingStep (st : ℚ × List Json × List Json) (row : Json) :
    Except String (ℚ × List Json × List Json) := do
  let shipped := shippedUnits row
  let onbr ← pyGet row "order_nbr"
  let orders :=
    match onbr with
    | some j => if pyTruthy j then setAdd st.2.1 j else st.2.1
    | none => st.2.1
  let cnbr ← pyGet row "container_nbr"
  let containers :=
    match cnbr with
    | some j => if pyTruthy j then setAdd st.2.2 j else st.2.2
    | none => st.2.2
  return (st.1 + shipped, orders, containers)

/-- `/shippingKPI` (src/app.py lines 277-362): validation, guarded
`int(days)`, upstream call caught at the call site. -/
def shipping_kpi (days facility : Option String) (from_date to_date : String)
    (upstream : Except String Resp) : Except String Json := do
  if !(strTruthy days && strTruthy facility) then
    return Json.obj [("status", Json.str "error"),
      ("message", Json.str "Missing required params")]
  match pyInt (days.getD "") with
  | Except.error _ =>
    return Json.obj [("status", Json.str "error"),
      ("message", Json.str "Days must be numeric")]
  | Except.ok _ =>
    match upstream with
    | Except.error e =>
      return Json.obj [("status", Json.str "error"), ("message", Json.str e)]
    | Except.ok r => do
      let rows := safe_wms_json r.body
      let st ← rows.foldlM shippingStep (0, [], [])
      return Json.obj [("status", Json.str "success"),
        ("from_date", Json.str from_date), ("to_date", Json.str to_date),
        ("summary", Json.obj [
          ("total_units_shipped", Json.num st.1),
          ("total_orders_shipped", Json.num st.2.1.length),
          ("total_containers_shipped", Json.num st.2.2.length)])]

/-- One iteration of the receiving KPI loop (src/app.py lines 415-433). -/
def receivingStep (st : ℚ × List Json × List Json) (row : Json) :
    Except String (ℚ × List Json × List Json) := do
  let received := receivedUnits row
  let snbr ← pyGet row "shipment_nbr"
  let shipments :=
    match snbr with
    | some j => if pyTruthy j then setAdd st.2.1 j else st.2.1
    | none => st.2.1
  let cnbr ← pyGet row "container_nbr"
  let containers :=
    match cnbr with
    | some j => if pyTruthy j then setAdd st.2.2 j else st.2.2
    | none => st.2.2
  return (st.1 + received, shipments, containers)

/-- `/receivingKPI` (src/app.py lines 364-449). -/
def receiving_kpi (days facility : Option String) (from_date to_date : String)
    (upstream : Except String Resp) : Except String Json := do
  if !(strTruthy days && strTruthy facility) then
    return Json.obj [("status", Json.str "error"),
      ("message", Json.str "Missing required params")]
  match pyInt (days.getD "") with
  | Except.error _ =>
    return Json.obj [("status", Json.str "error"),
      ("message", Json.str "Days must be numeric")]
  | Except.ok _ =>
    match upstream with
    | Except.error e =>
      return Json.obj [("status", Json.str "error"), ("message", Json.str e)]
    | Except.ok r => do
      let rows := safe_wms_json r.body
      let st ← rows.foldlM receivingStep (0, [], [])
      return Json.obj [("status", Json.str "success"),
        ("from_date", Json.str from_date), ("to_date", Json.str to_date),
        ("summary", Json.obj [
          ("total_units_received", Json.num st.1),
          ("total_shipment_received", Json.num st.2.1.length),
          ("total_containers_received", Json.num st.2.2.length)])]

/-! ## On-time receiving KPI (src/app.py lines 455-586) -/

/-- One iteration of the expected-map loop (src/app.py lines 494-501):
rows with truthy `po_nbr` and `delivery_date` map the PO number to the
end-of-day expected timestamp; a later duplicate PO overwrites. -/
def expectedMapStep (m : List (Json × String)) (row : Json) :
    Except String (List (Json × String)) := do
  let po ← pyGet row "po_nbr"
  let delivery ← pyGet row "delivery_date"
  match po, delivery with
  | some p, some d =>
    if pyTruthy p && pyTruthy d then
      return dictSet m p (pyStr d ++ "T23:59:59Z")
    else return m
  | _, _ => return m

/-- `expected_map` (src/app.py lines 492-501). -/
def expectedMap (rows : List Json) : Except String (List (Json × String)) :=
  rows.foldlM expectedMapStep []

/-- Running counters of the receipt-matching loop (src/app.py lines
535-539). -/
structure MatchState where
  total_receipts : ℕ
  on_time : ℕ
  late : ℕ
  detail_rows : List Json
  deriving DecidableEq

/-- One detail row (src/app.py lines 563-568). -/
def detailRow (p : Json) (expected actual status : String) : Json :=
  Json.obj [("po_nbr", p), ("expected_ts", Json.str expected),
    ("actual_ts", Json.str actual), ("status", Json.str status)]

/-- One iteration of the receipt-matching loop (src/app.py lines
541-568): rows missing a truthy `po_nbr` or `create_ts` are skipped,
rows whose PO is not in the expected map are skipped, and a matched row
counts on-time exactly when `actual_ts <= expected_ts` (Python string
comparison; a non-string `create_ts` value would raise a `TypeError`). -/
def matchStep (em : List (Json × String)) (st : MatchState) (row : Json) :
    Except String MatchState := do
  let po ← pyGet row "po_nbr"
  let actual ← pyGet row "create_ts"
  match po, actual with
  | some p, some a =>
    if !(pyTruthy p && pyTruthy a) then return st
    else
      match dictGet em p with
      | none => return st
      | some expected =>
        match a with
        | Json.str sa =>
          if sa ≤ expected then
            return ⟨st.total_receipts + 1, st.on_time + 1, st.late,
              st.detail_rows ++ [detailRow p expected sa "ON_TIME"]⟩
          else
            return ⟨st.total_receipts + 1, st.on_time, st.late + 1,
              st.detail_rows ++ [detailRow p expected sa "LATE"]⟩
        | _ => Except.error "TypeError: not supported between instances"
  | _, _ => return st

/-- The whole matching loop (src/app.py lines 535-568). -/
def matchReceipts (em : List (Json × String)) (rows : List Json) :
    Except String MatchState :=
  rows.foldlM (matchStep em) ⟨0, 0, 0, []⟩

/-- `/onTimeReceivingKPI` (src/app.py lines 455-586).  Both upstream
calls are individually guarded with distinct error prefixes; an empty
expected map short-circuits before the inventory-history call. -/
def on_time_receiving_kpi (days facility : Option String)
    (from_date to_date : String) (poRes ihRes : Except String Resp) :
    Except String Json := do
  if !(strTruthy days && strTruthy facility) then
    return Json.obj [("status", Json.str "error"),
      ("message", Json.str "Missing required params")]
  match pyInt (days.getD "") with
  | Except.error _ =>
    return Json.obj [("status", Json.str "error"),
      ("message", Json.str "Days must be numeric")]
  | Except.ok _ =>
    match poRes with
    | Except.error e =>
      return Json.obj [("status", Json.str "error"),
        ("message", Json.str ("PO API error: " ++ e))]
    | Except.ok pr => do
      let em ← expectedMap (safe_wms_json pr.body)
      if em.isEmpty then
        return Json.obj [("status", Json.str "success"),
          ("from_date", Json.str from_date), ("to_date", Json.str to_date),
          ("message", Json.str "No purchase orders found in date range"),
          ("summary", Json.obj []), ("rows", Json.arr [])]
      match ihRes with
      | Except.error e =>
        return Json.obj [("status", Json.str "error"),
          ("message", Json.str ("Inventory history API error: " ++ e))]
      | Except.ok ir => do
        let st ← matchReceipts em (safe_wms_json ir.body)
        return Json.obj [("status", Json.str "success"),
          ("from_date", Json.str from_date), ("to_date", Json.str to_date),
          ("summary", Json.obj [
            ("total_receipts", Json.num st.total_receipts),
            ("on_time_receipts", Json.num st.on_time),
            ("late_receipts", Json.num st.late),
            ("on_time_percent", Json.num
              (if 0 < st.total_receipts
                then (st.on_time : ℚ) / st.total_receipts * 100 else 0))]),
          ("rows", Json.arr st.detail_rows)]

/-! ## Dock-to-stock KPI (src/app.py lines 589-757) -/

/-- Days since 1970-01-01 of a proleptic-Gregorian civil date
(the arithmetic `datetime` performs internally). -/
def daysFromCivil (y m d : Int) : Int :=
  let y2 := if m ≤ 2 then y - 1 else y
  let era := (if 0 ≤ y2 then y2 else y2 - 399) / 400
  let yoe := y2 - era * 400
  let mp := (m + 9) % 12
  let doy := (153 * mp + 2) / 5 + d - 1
  let doe := yoe * 365 + yoe / 4 - yoe / 100 + doy
  era * 146097 + doe - 719468

/-- `ts.replace("Z", "+00:00")` for the trailing `Z` of WMS timestamps
(the only position `Z` occurs in them). -/
def replZ (s : String) : String :=
  if s.endsWith "Z" then s.dropRight 1 ++ "+00:00" else s

/-- `datetime.fromisoformat` on the canonical
`YYYY-MM-DDTHH:MM:SS` shape with an optional `+HH:MM`/`-HH:MM` offset,
as seconds since the epoch.  Other ISO variants the library tolerates
are not modelled: the service only feeds it WMS `create_ts` values of
this shape (after `replZ`). -/
def fromIso (s : String) : Except String ℚ :=
  match s.toList with
  | y1 :: y2 :: y3 :: y4 :: '-' :: m1 :: m2 :: '-' :: d1 :: d2 ::
      sep :: h1 :: h2 :: ':' :: mi1 :: mi2 :: ':' :: s1 :: s2 :: rest =>
    if (sep = 'T' ∨ sep = ' ') ∧
        [y1, y2, y3, y4, m1, m2, d1, d2, h1, h2, mi1, mi2, s1, s2].all
          Char.isDigit then
      let base : Int :=
        daysFromCivil (natOfDigits [y1, y2, y3, y4]) (natOfDigits [m1, m2])
            (natOfDigits [d1, d2]) * 86400 +
          (natOfDigits [h1, h2] : Int) * 3600 +
          (natOfDigits [mi1, mi2] : Int) * 60 + (natOfDigits [s1, s2] : Int)
      match rest with
      | [] => Except.ok (base : ℚ)
      | sign :: o1 :: o2 :: ':' :: o3 :: o4 :: [] =>
        if (sign = '+' ∨ sign = '-') ∧ [o1, o2, o3, o4].all Char.isDigit then
          let off : Int :=
            (natOfDigits [o1, o2] : Int) * 3600 + (natOfDigits [o3, o4] : Int) * 60
          Except.ok ((base - (if sign = '+' then off else -off) : Int) : ℚ)
        else Except.error "ValueError: Invalid isoformat string"
      | _ :: _ => Except.error "ValueError: Invalid isoformat string"
    else Except.error "ValueError: Invalid isoformat string"
  | _ => Except.error "ValueError: Invalid isoformat string"

/-- `datetime.fromisoformat(ts.replace("Z", "+00:00"))` applied to a raw
`create_ts` value: a non-string (including a missing key's `None`)
raises an `AttributeError` on `.replace`. -/
def tsToSeconds (v : Json) : Except String ℚ :=
  match v with
  | Json.str s => fromIso (replZ s)
  | _ => Except.error "AttributeError: replace"

/-- Stage-1 state of /receivingKPI1 (src/app.py lines 637-642): running
units, unique shipment and container sets, and the per-shipment record
of earliest dock time (epoch seconds) and container set. -/
structure Rk1State where
  total_units : ℚ
  shipments : List Json
  containers : List Json
  ship_map : List (Json × (ℚ × List Json))

/-- One iteration of the stage-1 loop (src/app.py lines 644-676):
guarded unit coercion, unique-set updates, then — for rows with truthy
shipment and container — an UNGUARDED timestamp parse feeding the
per-shipment earliest dock time. -/
def rk1Step (st : Rk1State) (row : Json) : Except String Rk1State := do
  let received := receivedUnits row
  let snbr ← pyGet row "shipment_nbr"
  let shipments :=
    match snbr with
    | some j => if pyTruthy j then setAdd st.shipments j else st.shipments
    | none => st.shipments
  let cnbr ← pyGet row "container_nbr"
  let containers :=
    match cnbr with
    | some j => if pyTruthy j then setAdd st.containers j else st.containers
    | none => st.containers
  match snbr, cnbr with
  | some sj, some lj =>
    if pyTruthy sj && pyTruthy lj then do
      let ts ← pyGet row "create_ts"
      let dt ← tsToSeconds ((ts).getD Json.null)
      let newMap :=
        match dictGet st.ship_map sj with
        | none => dictSet st.ship_map sj (dt, [lj])
        | some (dock, lpns) =>
          dictSet st.ship_map sj (min dock dt, setAdd lpns lj)
      return ⟨st.total_units + received, shipments, containers, newMap⟩
    else return ⟨st.total_units + received, shipments, containers, st.ship_map⟩
  | _, _ => return ⟨st.total_units + received, shipments, containers, st.ship_map⟩

/-- The whole stage-1 loop of /receivingKPI1. -/
def rk1Stage1 (rows : List Json) : Except String Rk1State :=
  rows.foldlM rk1Step ⟨0, [], [], []⟩

/-- One iteration of the per-LPN earliest stock time loop (src/app.py
lines 712-725): rows without truthy container and timestamp are
skipped; the parse is unguarded. -/
def stockTimesStep (acc : List (Json × ℚ)) (r : Json) :
    Except String (List (Json × ℚ)) := do
  let lpn ← pyGet r "container_nbr"
  let ts ← pyGet r "create_ts"
  match lpn, ts with
  | some lj, some tj =>
    if pyTruthy lj && pyTruthy tj then do
      let dt ← tsToSeconds tj
      match dictGet acc lj with
      | none => return dictSet acc lj dt
      | some prev => return dictSet acc lj (min prev dt)
    else return acc
  | _, _ => return acc

/-- `lpn_stock_times` (src/app.py lines 712-725). -/
def stockTimes (rows : List Json) : Except String (List (Json × ℚ)) :=
  rows.foldlM stockTimesStep []

/-- `",".join(lpns)` over container numbers: every element must be a
string. -/
def csvOfJsonList : List Json → Except String (List String)
  | [] => Except.ok []
  | Json.str s :: rest => do
    let r ← csvOfJsonList rest
    return s :: r
  | _ :: _ => Except.error "TypeError: sequence item 0: expected str instance"

/-- The per-shipment stage-2 body (src/app.py lines 683-731): skip empty
container sets, issue the activity-51 lookup (modelled as a function of
the container CSV), skip the shipment when that call raises, fold the
earliest stock time per container, and keep the non-negative
dock-to-stock minute values. -/
def dtsFilter (dock : ℚ) (lst : List (Json × ℚ)) : List ℚ :=
  lst.foldl (fun acc kv =>
    let dts := (kv.2 - dock) / 60
    if 0 ≤ dts then acc ++ [dts] else acc) []

/-- Continuation of the stage-2 body: the kept samples. -/
def perShipmentSamples (act51 : String → Except String Resp)
    (dock : ℚ) (lpns : List Json) : Except String (List ℚ) := do
  if lpns.isEmpty then return []
  let strs ← csvOfJsonList lpns
  match act51 (String.intercalate "," strs) with
  | Except.error _ => return []
  | Except.ok r => do
    let lst ← stockTimes (safe_wms_json r.body)
    return dtsFilter dock lst

/-- One shipment's contribution appended to the running sample list. -/
def dtsmStep (act51 : String → Except String Resp) (acc : List ℚ)
    (entry : Json × (ℚ × List Json)) : Except String (List ℚ) := do
  let s ← perShipmentSamples act51 entry.2.1 entry.2.2
  return acc ++ s

/-- `dock_to_stock_minutes` (src/app.py lines 681-731): concatenation of
the per-shipment sample lists, in shipment-map order. -/
def dockToStockMinutes (shipMap : List (Json × (ℚ × List Json)))
    (act51 : String → Except String Resp) : Except String (List ℚ) :=
  shipMap.foldlM (dtsmStep act51) []

/-- Round half to even, the rounding Python's `round` uses. -/
def roundHalfEven (q : ℚ) : ℤ :=
  let f := ⌊q⌋
  let r := q - f
  if r < 1 / 2 then f
  else if 1 / 2 < r then f + 1
  else if f % 2 = 0 then f else f + 1

/-- Python `round(x, 2)` on exact decimal data (binary-float artifacts
are not modelled). -/
def round2 (q : ℚ) : ℚ := (roundHalfEven (q * 100) : ℚ) / 100

/-- `avg_dts` (src/app.py lines 734-737): the rounded arithmetic mean of
the samples, or `0` when there are none. -/
def avgDts (samples : List ℚ) : ℚ :=
  if samples.isEmpty then 0 else round2 (samples.sum / samples.length)

/-- `/receivingKPI1` (src/app.py lines 589-757). -/
def receiving_kpi1 (days facility : Option String) (from_date to_date : String)
    (act1Res : Except String Resp) (act51 : String → Except String Resp) :
    Except String Json := do
  if !(strTruthy days && strTruthy facility) then
    return Json.obj [("status", Json.str "error"),
      ("message", Json.str "Missing required params")]
  match pyInt (days.getD "") with
  | Except.error _ =>
    return Json.obj [("status", Json.str "error"),
      ("message", Json.str "Days must be numeric")]
  | Except.ok _ =>
    match act1Res with
    | Except.error e =>
      return Json.obj [("status", Json.str "error"), ("message", Json.str e)]
    | Except.ok r => do
      let st ← rk1Stage1 (safe_wms_json r.body)
      let samples ← dockToStockMinutes st.ship_map act51
      return Json.obj [("status", Json.str "success"),
        ("from_date", Json.str from_date), ("to_date", Json.str to_date),
        ("summary", Json.obj [
          ("total_units_received", Json.num st.total_units),
          ("total_shipment_received", Json.num st.shipments.length),
          ("total_containers_received", Json.num st.containers.length),
          ("avg_dock_to_stock_minutes", Json.num (avgDts samples))])]

/-! ## Days-parameter validation (claim C5) -/

/-- A claim-C5 counterexample: on /replenSummary a non-numeric `days`
(`"abc"`) does not yield a validation error response — the unguarded
`int(days)` (src/app.py line 178) raises and the `ValueError` escapes
the handler (modelled as `Except.error`), though still before any
upstream call. -/
theorem replen_days_abc_raises :
    replen_summary (some "abc") (some "F1") "2025-01-02" "2025-01-09"
      (Except.ok ⟨200, "", some (Json.arr [])⟩)
      (Except.ok ⟨200, "", some (Json.arr [])⟩)
      (Except.ok ⟨200, "", some (Json.arr [])⟩) =
      Except.error "ValueError: invalid literal for int()" := rfl

/-- C5 amended: on /shippingKPI, /receivingKPI, /onTimeReceivingKPI and
/receivingKPI1 a non-numeric `days` yields the validation error body
"Days must be numeric" and the result is independent of every upstream
response (no upstream call is issued); on /replenSummary a non-numeric
`days` instead raises an uncaught ValueError — the result is likewise
independent of the upstream responses (still no upstream call), but it
is an escaping exception, not a validation error response. -/
theorem days_validation_policy
    (ds f fd td : String) (hds : ds ≠ "") (hf : f ≠ "")
    (e : String) (hbad : pyInt ds = Except.error e)
    (u u2 u3 : Except String Resp) (act51 : String → Except String Resp) :
    shipping_kpi (some ds) (some f) fd td u =
      Except.ok (Json.obj [("status", Json.str "error"),
        ("message", Json.str "Days must be numeric")]) ∧
    receiving_kpi (some ds) (some f) fd td u =
      Except.ok (Json.obj [("status", Json.str "error"),
        ("message", Json.str "Days must be numeric")]) ∧
    on_time_receiving_kpi (some ds) (some f) fd td u u2 =
      Except.ok (Json.obj [("status", Json.str "error"),
        ("message", Json.str "Days must be numeric")]) ∧
    receiving_kpi1 (some ds) (some f) fd td u act51 =
      Except.ok (Json.obj [("status", Json.str "error"),
        ("message", Json.str "Days must be numeric")]) ∧
    replen_summary (some ds) (some f) fd td u u2 u3 = Except.error e := by
  refine ⟨?_, ?_, ?_, ?_, ?_⟩
  · simp [shipping_kpi, strTruthy, hds, hf, hbad, bind, Except.bind,
      pure, Except.pure]
  · simp [receiving_kpi, strTruthy, hds, hf, hbad, bind, Except.bind,
      pure, Except.pure]
  · simp [on_time_receiving_kpi, strTruthy, hds, hf, hbad, bind, Except.bind,
      pure, Except.pure]
  · simp [receiving_kpi1, strTruthy, hds, hf, hbad, bind, Except.bind,
      pure, Except.pure]
  · simp [replen_summary, strTruthy, hds, hf, hbad, bind, Except.bind,
      pure, Except.pure]

/-- Witness for the amended C5 theorem at `days = "abc"`. -/
theorem days_validation_policy_witness :
    shipping_kpi (some "abc") (some "F1") "2025-01-01" "2025-01-08"
      (Except.error "timeout") =
      Except.ok (Json.obj [("status", Json.str "error"),
        ("message", Json.str "Days must be numeric")]) ∧
    replen_summary (some "abc") (some "F1") "2025-01-01" "2025-01-08"
      (Except.error "timeout") (Except.error "timeout")
      (Except.error "timeout") =
      Except.error "ValueError: invalid literal for int()" := by
  have h := days_validation_policy "abc" "F1" "2025-01-01" "2025-01-08"
    (by decide) (by decide) "ValueError: invalid literal for int()" rfl
    (Except.error "timeout") (Except.error "timeout") (Except.error "timeout")
    (fun _ => Except.error "timeout")
  exact ⟨h.1, h.2.2.2.2⟩

/-! ## Upstream-exception handling (claim C4) -/

/-- A claim-C4 counterexample: in /replenSummary the orders call
(src/app.py line 199) is not wrapped in `try/except`; if it raises, the
exception propagates out of the handler (an `Except.error` result, not a
structured JSON error body). -/
theorem replen_upstream_exception_propagates :
    replen_summary (some "7") (some "F1") "2025-01-02" "2025-01-09"
      (Except.error "ConnectTimeout")
      (Except.ok ⟨200, "", some (Json.arr [])⟩)
      (Except.ok ⟨200, "", some (Json.arr [])⟩) =
      Except.error "ConnectTimeout" := rfl

/-- C4 amended: every endpoint handler except /replenSummary catches an
upstream-call exception at the call site — /getOrder, both /getOnhand
variants, /existMoveReq, /shippingKPI, /receivingKPI and /receivingKPI1
return a structured error body carrying the exception message,
/onTimeReceivingKPI prefixes it per call, and a raising per-shipment
putaway lookup in /receivingKPI1 merely skips that shipment (empty
sample contribution).  In /replenSummary the three upstream calls are
unwrapped and the exception escapes the handler. -/
theorem upstream_exception_policy
    (e : String) (fd td fc its ds f dfrom dto : String)
    (hfd : fd ≠ "") (htd : td ≠ "") (hfc : fc ≠ "") (hits : its ≠ "")
    (hds : ds ≠ "") (hf : f ≠ "")
    (n : Int) (hn : pyInt ds = Except.ok n)
    (ih : Except String Resp) (act51 : String → Except String Resp)
    (pr : Resp) (em : List (Json × String))
    (hem : expectedMap (safe_wms_json pr.body) = Except.ok em)
    (hne : em.isEmpty = false)
    (dock : ℚ) (lpns : List Json) (strs : List String)
    (hlp : lpns.isEmpty = false) (hcsv : csvOfJsonList lpns = Except.ok strs)
    (ef : String → String) (u2 u3 : Except String Resp) :
    get_order (some fd) (some td) (some fc) (Except.error e) =
      Except.ok (Json.obj [("status", Json.str "error"),
        ("message", Json.str e)]) ∧
    get_onhand (some its) (some f) (Except.error e) =
      Except.ok (Json.obj [("status", Json.str "error"),
        ("message", Json.str e)]) ∧
    exist_move_req (some its) (some f) (Except.error e) =
      Except.ok (Json.obj [("status", Json.str "error"),
        ("message", Json.str e)]) ∧
    Getonhand.get_onhand (some its) (some f) (Except.error e) =
      Except.ok (Json.obj [("status", Json.str "error"),
        ("message", Json.str e)]) ∧
    shipping_kpi (some ds) (some f) dfrom dto (Except.error e) =
      Except.ok (Json.obj [("status", Json.str "error"),
        ("message", Json.str e)]) ∧
    receiving_kpi (some ds) (some f) dfrom dto (Except.error e) =
      Except.ok (Json.obj [("status", Json.str "error"),
        ("message", Json.str e)]) ∧
    on_time_receiving_kpi (some ds) (some f) dfrom dto (Except.error e) ih =
      Except.ok (Json.obj [("status", Json.str "error"),
        ("message", Json.str ("PO API error: " ++ e))]) ∧
    on_time_receiving_kpi (some ds) (some f) dfrom dto (Except.ok pr)
        (Except.error e) =
      Except.ok (Json.obj [("status", Json.str "error"),
        ("message", Json.str ("Inventory history API error: " ++ e))]) ∧
    receiving_kpi1 (some ds) (some f) dfrom dto (Except.error e) act51 =
      Except.ok (Json.obj [("status", Json.str "error"),
        ("message", Json.str e)]) ∧
    perShipmentSamples (fun s => Except.error (ef s)) dock lpns =
      Except.ok [] ∧
    replen_summary (some ds) (some f) dfrom dto (Except.error e) u2 u3 =
      Except.error e := by
  refine ⟨?_, ?_, ?_, ?_, ?_, ?_, ?_, ?_, ?_, ?_, ?_⟩
  · simp [get_order, strTruthy, hfd, htd, hfc]
  · simp [get_onhand, strTruthy, hits, hf]
  · simp [exist_move_req, strTruthy, hits, hf]
  · simp [Getonhand.get_onhand, strTruthy, hits, hf]
  · simp [shipping_kpi, strTruthy, hds, hf, hn, bind, Except.bind,
      pure, Except.pure]
  · simp [receiving_kpi, strTruthy, hds, hf, hn, bind, Except.bind,
      pure, Except.pure]
  · simp [on_time_receiving_kpi, strTruthy, hds, hf, hn, bind, Except.bind,
      pure, Except.pure]
  · simp [on_time_receiving_kpi, strTruthy, hds, hf, hn, hem, hne, bind,
      Except.bind, pure, Except.pure]
  · simp [receiving_kpi1, strTruthy, hds, hf, hn, bind, Except.bind,
      pure, Except.pure]
  · simp [perShipmentSamples, hlp, hcsv, bind, Except.bind, pure, Except.pure]
  · simp [replen_summary, strTruthy, hds, hf, hn, bind, Except.bind,
      pure, Except.pure]

/-- Witness for the amended C4 theorem at concrete inputs: a timed-out
upstream call is caught on /shippingKPI, skipped per shipment on the
putaway lookup, and escapes /replenSummary. -/
theorem upstream_exception_policy_witness :
    shipping_kpi (some "7") (some "F1") "2025-01-01" "2025-01-08"
      (Except.error "ReadTimeout") =
      Except.ok (Json.obj [("status", Json.str "error"),
        ("message", Json.str "ReadTimeout")]) ∧
    perShipmentSamples (fun _ => Except.error "ReadTimeout") 0
      [Json.str "C1"] = Except.ok [] ∧
    replen_summary (some "7") (some "F1") "2025-01-01" "2025-01-08"
      (Except.error "ReadTimeout") (Except.error "ReadTimeout")
      (Except.error "ReadTimeout") = Except.error "ReadTimeout" := by
  have h := upstream_exception_policy "ReadTimeout" "2025-01-01" "2025-01-08"
    "F1" "A,B" "7" "F1" "2025-01-01" "2025-01-08"
    (by decide) (by decide) (by decide) (by decide) (by decide) (by decide)
    7 rfl (Except.error "ReadTimeout") (fun _ => Except.error "ReadTimeout")
    ⟨200, "", some (Json.arr [Json.obj [("po_nbr", Json.str "P1"),
      ("delivery_date", Json.str "2025-01-05")]])⟩
    [(Json.str "P1", "2025-01-05T23:59:59Z")] rfl rfl
    0 [Json.str "C1"] ["C1"] rfl rfl
    (fun _ => "ReadTimeout")
    (Except.error "ReadTimeout") (Except.error "ReadTimeout")
  exact ⟨h.2.2.2.2.1, h.2.2.2.2.2.2.2.2.2.1, h.2.2.2.2.2.2.2.2.2.2⟩

/-! ## HTTP 404 handling (claim C9) -/

/-- A claim-C9 counterexample: the app.py /getOnhand handler does not
special-case 404.  A 404 whose JSON body is the upstream error dict is
normalized into a one-row result — status "success" but `noData` false
and `rows` NOT empty, contradicting the claimed empty-result
reinterpretation for every endpoint. -/
theorem app_get_onhand_404_is_not_empty_result :
    get_onhand (some "A") (some "F1")
      (Except.ok ⟨404, "", some (Json.obj [("detail", Json.str "Not found.")])⟩) =
      Except.ok (Json.obj [("status", Json.str "success"),
        ("rows", Json.arr [Json.obj [("detail", Json.str "Not found.")]]),
        ("noData", Json.bool false)]) ∧
    Json.arr [Json.obj [("detail", Json.str "Not found.")]] ≠ Json.arr [] := by
  refine ⟨rfl, by simp⟩

/-- C9 amended: only the standalone getonhand.py variant reinterprets an
upstream 404 as a valid empty result (status "success", noData true,
rows empty), whatever the 404 body was; the app.py handlers never
inspect the HTTP status code — their result is a function of the
decoded body alone, so a 404 is treated like any other response. -/
theorem http_404_handling
    (its f : String) (hits : its ≠ "") (hf : f ≠ "")
    (t t2 : String) (b : Option Json) (s1 s2 : ℕ) :
    Getonhand.get_onhand (some its) (some f) (Except.ok ⟨404, t, b⟩) =
      Except.ok (Json.obj [("status", Json.str "success"),
        ("noData", Json.bool true), ("rows", Json.arr [])]) ∧
    get_onhand (some its) (some f) (Except.ok ⟨s1, t, b⟩) =
      get_onhand (some its) (some f) (Except.ok ⟨s2, t2, b⟩) := by
  constructor
  · simp [Getonhand.get_onhand, strTruthy, hits, hf]
  · simp [get_onhand, strTruthy, hits, hf]

/-- Witness for the amended C9 theorem: a concrete 404 with an error
body is an empty success on the getonhand.py variant, and the app.py
variant gives byte-identical output for that body under status 404 and
status 200. -/
theorem http_404_handling_witness :
    Getonhand.get_onhand (some "A") (some "F1")
      (Except.ok ⟨404, "err", some (Json.obj [("detail", Json.str "Not found.")])⟩) =
      Except.ok (Json.obj [("status", Json.str "success"),
        ("noData", Json.bool true), ("rows", Json.arr [])]) ∧
    get_onhand (some "A") (some "F1")
      (Except.ok ⟨404, "err", some (Json.obj [("detail", Json.str "Not found.")])⟩) =
      get_onhand (some "A") (some "F1")
      (Except.ok ⟨200, "", some (Json.obj [("detail", Json.str "Not found.")])⟩) := by
  have h := http_404_handling "A" "F1" (by decide) (by decide) "err" ""
    (some (Json.obj [("detail", Json.str "Not found.")])) 404 200
  exact h

/-! ## Empty expected map short-circuit (claim C10) -/

/-- C10: on /onTimeReceivingKPI, when the purchase-order fetch yields no
row with both a truthy PO number and delivery date (empty expected map),
the handler returns the early success body with empty summary and rows,
identically for EVERY inventory-history response — i.e. without issuing
that request. -/
theorem on_time_no_po_short_circuit
    (ds f fd td : String) (hds : ds ≠ "") (hf : f ≠ "")
    (n : Int) (hn : pyInt ds = Except.ok n)
    (pr : Resp) (hem : expectedMap (safe_wms_json pr.body) = Except.ok [])
    (ihRes : Except String Resp) :
    on_time_receiving_kpi (some ds) (some f) fd td (Except.ok pr) ihRes =
      Except.ok (Json.obj [("status", Json.str "success"),
        ("from_date", Json.str fd), ("to_date", Json.str td),
        ("message", Json.str "No purchase orders found in date range"),
        ("summary", Json.obj []), ("rows", Json.arr [])]) := by
  simp [on_time_receiving_kpi, strTruthy, hds, hf, hn, hem, bind,
    Except.bind, pure, Except.pure]

/-- Witness for C10: PO headers decode to an empty list; the handler
short-circuits identically for a raising inventory-history call. -/
theorem on_time_no_po_short_circuit_witness :
    on_time_receiving_kpi (some "7") (some "F1") "2025-01-01" "2025-01-08"
      (Except.ok ⟨200, "", some (Json.arr [])⟩)
      (Except.error "never sent") =
      Except.ok (Json.obj [("status", Json.str "success"),
        ("from_date", Json.str "2025-01-01"),
        ("to_date", Json.str "2025-01-08"),
        ("message", Json.str "No purchase orders found in date range"),
        ("summary", Json.obj []), ("rows", Json.arr [])]) := by
  exact on_time_no_po_short_circuit "7" "F1" "2025-01-01" "2025-01-08"
    (by decide) (by decide) 7 rfl ⟨200, "", some (Json.arr [])⟩ rfl
    (Except.error "never sent")

/-! ## On-time classification (claim C6) -/

/-- C6: in the /onTimeReceivingKPI matching loop, a receipt event (with
a truthy PO number and a non-empty string timestamp) whose PO is in the
expected map is classified ON_TIME exactly when its actual timestamp is
lexicographically ≤ the expected timestamp — equality included — and
LATE otherwise, incrementing `total_receipts` either way; an event whose
PO is absent from the map leaves every counter and the detail rows
untouched. -/
theorem on_time_classification
    (em : List (Json × String)) (st : MatchState) (row : Json)
    (p : Json) (a : String)
    (hpo : pyGet row "po_nbr" = Except.ok (some p))
    (hts : pyGet row "create_ts" = Except.ok (some (Json.str a)))
    (htp : pyTruthy p = true) (hta : a ≠ "") :
    (∀ exp, dictGet em p = some exp →
      matchStep em st row = Except.ok (
        if a ≤ exp then
          ⟨st.total_receipts + 1, st.on_time + 1, st.late,
            st.detail_rows ++ [detailRow p exp a "ON_TIME"]⟩
        else
          ⟨st.total_receipts + 1, st.on_time, st.late + 1,
            st.detail_rows ++ [detailRow p exp a "LATE"]⟩)) ∧
    (dictGet em p = none → matchStep em st row = Except.ok st) := by
  have hpa : pyTruthy (Json.str a) = true := by simp [pyTruthy, hta]
  constructor
  · intro exp hexp
    by_cases hle : a ≤ exp
    · simp [matchStep, hpo, hts, htp, hpa, hexp, hle, bind,
        Except.bind, pure, Except.pure]
    · simp [matchStep, hpo, hts, htp, hpa, hexp, hle, bind,
        Except.bind, pure, Except.pure]
  · intro hnone
    simp [matchStep, hpo, hts, htp, hpa, hnone, bind,
      Except.bind, pure, Except.pure]

/-- Witness for C6: with expected timestamp 2025-01-05T23:59:59Z, an
event at exactly that timestamp counts ON_TIME (inclusive boundary), an
event one second later counts LATE, and an event for an unknown PO
changes nothing. -/
theorem on_time_classification_witness :
    matchStep [(Json.str "PO1", "2025-01-05T23:59:59Z")] ⟨0, 0, 0, []⟩
      (Json.obj [("po_nbr", Json.str "PO1"),
        ("create_ts", Json.str "2025-01-05T23:59:59Z")]) =
      Except.ok ⟨1, 1, 0, [detailRow (Json.str "PO1") "2025-01-05T23:59:59Z"
        "2025-01-05T23:59:59Z" "ON_TIME"]⟩ ∧
    matchStep [(Json.str "PO1", "2025-01-05T23:59:59Z")] ⟨0, 0, 0, []⟩
      (Json.obj [("po_nbr", Json.str "PO1"),
        ("create_ts", Json.str "2025-01-06T00:00:00Z")]) =
      Except.ok ⟨1, 0, 1, [detailRow (Json.str "PO1") "2025-01-05T23:59:59Z"
        "2025-01-06T00:00:00Z" "LATE"]⟩ ∧
    matchStep [(Json.str "PO1", "2025-01-05T23:59:59Z")] ⟨0, 0, 0, []⟩
      (Json.obj [("po_nbr", Json.str "PO2"),
        ("create_ts", Json.str "2025-01-05T10:00:00Z")]) =
      Except.ok ⟨0, 0, 0, []⟩ := by
  refine ⟨?_, ?_, ?_⟩
  · have h := (on_time_classification [(Json.str "PO1", "2025-01-05T23:59:59Z")]
      ⟨0, 0, 0, []⟩
      (Json.obj [("po_nbr", Json.str "PO1"),
        ("create_ts", Json.str "2025-01-05T23:59:59Z")])
      (Json.str "PO1") "2025-01-05T23:59:59Z" rfl rfl (by decide)
      (by decide)).1 "2025-01-05T23:59:59Z" rfl
    rwa [if_pos le_rfl] at h
  · have h := (on_time_classification [(Json.str "PO1", "2025-01-05T23:59:59Z")]
      ⟨0, 0, 0, []⟩
      (Json.obj [("po_nbr", Json.str "PO1"),
        ("create_ts", Json.str "2025-01-06T00:00:00Z")])
      (Json.str "PO1") "2025-01-06T00:00:00Z" rfl rfl (by decide)
      (by decide)).1 "2025-01-05T23:59:59Z" rfl
    rw [if_neg (by simp; decide)] at h
    exact h
  · exact (on_time_classification [(Json.str "PO1", "2025-01-05T23:59:59Z")]
      ⟨0, 0, 0, []⟩
      (Json.obj [("po_nbr", Json.str "PO2"),
        ("create_ts", Json.str "2025-01-05T10:00:00Z")])
      (Json.str "PO2") "2025-01-05T10:00:00Z" rfl rfl (by decide)
      (by decide)).2 rfl

/-! ## Numeric coercion (claim C8) -/

/-- A claim-C8 counterexample: an order row whose `ord_qty` is the
non-numeric string "abc" does not contribute zero — the unguarded
`float` (src/app.py line 208) raises a ValueError that escapes the
aggregation. -/
theorem ordqty_parse_failure_raises :
    orderSummary [Json.obj [("item_id__code", Json.str "A"),
      ("ord_qty", Json.str "abc")]] =
      Except.error "ValueError: could not convert string to float" := rfl

/-- C8 amended: in the replenishment aggregation a MISSING quantity
field defaults to zero (`row.get("ord_qty", 0)`), but a present value
that fails to parse as a number raises an uncaught error rather than
being treated as zero; only the shipping/receiving KPI coercion is
wrapped in `try/except` and turns every parse failure into zero (and is
total, so it never raises). -/
theorem numeric_coercion_policy
    (acc accB : List (Json × ℚ)) (jA jB : Json)
    (kvsA kvsB kvsC : List (String × Json)) (vB vC : Json) (eB eC : String)
    (hiA : lookupKey kvsA "item_id__code" = some jA)
    (htA : pyTruthy jA = true)
    (hmA : lookupKey kvsA "ord_qty" = none)
    (hiB : lookupKey kvsB "item_id__code" = some jB)
    (htB : pyTruthy jB = true)
    (hvB : lookupKey kvsB "ord_qty" = some vB)
    (heB : pyFloat vB = Except.error eB)
    (hvC : lookupKey kvsC "units_shipped" = some vC)
    (htC : pyTruthy vC = true)
    (heC : pyFloat vC = Except.error eC) :
    orderSummaryStep acc (Json.obj kvsA) = Except.ok (dictAdd acc jA 0) ∧
    orderSummaryStep accB (Json.obj kvsB) = Except.error eB ∧
    shippedUnits (Json.obj kvsC) = 0 := by
  refine ⟨?_, ?_, ?_⟩
  · simp [orderSummaryStep, pyGet, pyGetD, hiA, htA, hmA, pyFloat, bind,
      Except.bind, Functor.map, Except.map, pure, Except.pure]
  · simp [orderSummaryStep, pyGet, pyGetD, hiB, htB, hvB, heB, bind,
      Except.bind, Functor.map, Except.map, pure, Except.pure]
  · simp [shippedUnits, hvC, htC, heC]

/-- Witness for the amended C8 theorem: item A with no `ord_qty` adds
zero, item A with `ord_qty = "abc"` raises, and the shipping coercion of
`units_shipped = "abc"` yields zero. -/
theorem numeric_coercion_policy_witness :
    orderSummaryStep [] (Json.obj [("item_id__code", Json.str "A")]) =
      Except.ok [(Json.str "A", 0)] ∧
    orderSummaryStep [] (Json.obj [("item_id__code", Json.str "A"),
      ("ord_qty", Json.str "abc")]) =
      Except.error "ValueError: could not convert string to float" ∧
    shippedUnits (Json.obj [("units_shipped", Json.str "abc")]) = 0 := by
  have h := numeric_coercion_policy [] [] (Json.str "A") (Json.str "A")
    [("item_id__code", Json.str "A")]
    [("item_id__code", Json.str "A"), ("ord_qty", Json.str "abc")]
    [("units_shipped", Json.str "abc")]
    (Json.str "abc") (Json.str "abc")
    "ValueError: could not convert string to float"
    "ValueError: could not convert string to float"
    rfl (by decide) rfl rfl (by decide) rfl rfl rfl (by decide) rfl
  refine ⟨?_, h.2.1, h.2.2⟩
  have h1 := h.1
  simpa [dictAdd] using h1

/-! ## Dock-to-stock properties (claim C7) -/

/-- The sample-keeping fold equals mapping to elapsed minutes and
keeping the non-negative values. -/
theorem dtsFilter_eq (dock : ℚ) (lst : List (Json × ℚ)) :
    dtsFilter dock lst =
      (lst.map fun kv => (kv.2 - dock) / 60).filter fun d => decide (0 ≤ d) := by
  suffices h : ∀ acc, lst.foldl (fun acc kv =>
      let dts := (kv.2 - dock) / 60
      if 0 ≤ dts then acc ++ [dts] else acc) acc =
      acc ++ ((lst.map fun kv => (kv.2 - dock) / 60).filter
        fun d => decide (0 ≤ d)) by
    simpa [dtsFilter] using h []
  induction lst with
  | nil => intro acc; simp
  | cons kv rest ih =>
    intro acc
    simp only [List.foldl_cons, List.map_cons, List.filter_cons]
    by_cases hd : 0 ≤ (kv.2 - dock) / 60
    · simp [hd, ih]
    · simp [hd, ih]

/-- Every kept sample of one shipment is non-negative and is the
elapsed-minutes difference of some container's earliest stock time from
the shipment's dock time. -/
theorem perShipmentSamples_mem (act51 : String → Except String Resp)
    (dock : ℚ) (lpns : List Json) (s : List ℚ)
    (h : perShipmentSamples act51 dock lpns = Except.ok s) :
    ∀ x ∈ s, 0 ≤ x ∧ ∃ strs r lst,
      csvOfJsonList lpns = Except.ok strs ∧
      act51 (String.intercalate "," strs) = Except.ok r ∧
      stockTimes (safe_wms_json r.body) = Except.ok lst ∧
      ∃ kv ∈ lst, x = (kv.2 - dock) / 60 := by
  intro x hx
  unfold perShipmentSamples at h
  by_cases hl : lpns.isEmpty
  · simp [hl, pure, Except.pure] at h
    subst h
    simp at hx
  · cases hcsv : csvOfJsonList lpns with
    | error e => simp [hl, hcsv, bind, Except.bind, pure, Except.pure] at h
    | ok strs =>
      cases hact : act51 (String.intercalate "," strs) with
      | error e =>
        simp [hl, hcsv, hact, bind, Except.bind, pure, Except.pure] at h
        subst h
        simp at hx
      | ok r =>
        cases hst : stockTimes (safe_wms_json r.body) with
        | error e =>
          simp [hl, hcsv, hact, hst, bind, Except.bind, pure, Except.pure] at h
        | ok lst =>
          simp [hl, hcsv, hact, hst, bind, Except.bind, pure, Except.pure] at h
          rw [← h, dtsFilter_eq] at hx
          rcases List.mem_filter.mp hx with ⟨hmem, hpos⟩
          rcases List.mem_map.mp hmem with ⟨kv, hkv, rfl⟩
          exact ⟨by simpa using hpos, strs, r, lst, rfl, hact, hst, kv, hkv, rfl⟩

/-- Conversely, every non-negative elapsed value of a processed shipment
is kept. -/
theorem perShipmentSamples_complete (act51 : String → Except String Resp)
    (dock : ℚ) (lpns : List Json) (s : List ℚ)
    (h : perShipmentSamples act51 dock lpns = Except.ok s)
    (hl : lpns.isEmpty = false)
    (strs : List String) (r : Resp) (lst : List (Json × ℚ))
    (hcsv : csvOfJsonList lpns = Except.ok strs)
    (hact : act51 (String.intercalate "," strs) = Except.ok r)
    (hst : stockTimes (safe_wms_json r.body) = Except.ok lst) :
    ∀ kv ∈ lst, 0 ≤ (kv.2 - dock) / 60 → (kv.2 - dock) / 60 ∈ s := by
  intro kv hkv hpos
  unfold perShipmentSamples at h
  simp [hl, hcsv, hact, hst, bind, Except.bind, pure, Except.pure] at h
  rw [← h, dtsFilter_eq]
  exact List.mem_filter.mpr ⟨List.mem_map.mpr ⟨kv, hkv, rfl⟩, by simpa using hpos⟩

/-- The dock-to-stock fold only grows the accumulated sample list. -/
theorem dtsm_go_mono (act51 : String → Except String Resp)
    (shipMap : List (Json × (ℚ × List Json))) :
    ∀ acc m, List.foldlM (dtsmStep act51) acc shipMap = Except.ok m →
      ∀ x ∈ acc, x ∈ m := by
  induction shipMap with
  | nil =>
    intro acc m h x hx
    simp [pure, Except.pure] at h
    exact h ▸ hx
  | cons e0 rest ih =>
    intro acc m h x hx
    rw [List.foldlM_cons] at h
    cases hps : perShipmentSamples act51 e0.2.1 e0.2.2 with
    | error e => simp [dtsmStep, hps, bind, Except.bind] at h
    | ok s0 =>
      simp only [dtsmStep, hps, bind, Except.bind, pure, Except.pure] at h
      exact ih (acc ++ s0) m h x (List.mem_append.mpr (Or.inl hx))

/-- Every shipment-map entry of a successful dock-to-stock fold was
processed, and its samples all reach the final list. -/
theorem dtsm_go_entries (act51 : String → Except String Resp)
    (shipMap : List (Json × (ℚ × List Json))) :
    ∀ acc m, List.foldlM (dtsmStep act51) acc shipMap = Except.ok m →
      ∀ entry ∈ shipMap, ∃ s,
        perShipmentSamples act51 entry.2.1 entry.2.2 = Except.ok s ∧
        ∀ x ∈ s, x ∈ m := by
  induction shipMap with
  | nil =>
    intro acc m h entry he
    simp at he
  | cons e0 rest ih =>
    intro acc m h entry he
    rw [List.foldlM_cons] at h
    cases hps : perShipmentSamples act51 e0.2.1 e0.2.2 with
    | error e => simp [dtsmStep, hps, bind, Except.bind] at h
    | ok s0 =>
      simp only [dtsmStep, hps, bind, Except.bind, pure, Except.pure] at h
      rcases List.mem_cons.mp he with rfl | hrest
      · exact ⟨s0, hps, fun x hx =>
          dtsm_go_mono act51 rest (acc ++ s0) m h x
            (List.mem_append.mpr (Or.inr hx))⟩
      · exact ih (acc ++ s0) m h entry hrest

/-- Every final sample comes from the accumulator or from some
shipment-map entry's per-shipment samples. -/
theorem dtsm_go_origin (act51 : String → Except String Resp)
    (shipMap : List (Json × (ℚ × List Json))) :
    ∀ acc m, List.foldlM (dtsmStep act51) acc shipMap = Except.ok m →
      ∀ x ∈ m, x ∈ acc ∨ ∃ entry ∈ shipMap, ∃ s,
        perShipmentSamples act51 entry.2.1 entry.2.2 = Except.ok s ∧
        x ∈ s := by
  induction shipMap with
  | nil =>
    intro acc m h x hx
    simp [pure, Except.pure] at h
    exact Or.inl (h ▸ hx)
  | cons e0 rest ih =>
    intro acc m h x hx
    rw [List.foldlM_cons] at h
    cases hps : perShipmentSamples act51 e0.2.1 e0.2.2 with
    | error e => simp [dtsmStep, hps, bind, Except.bind] at h
    | ok s0 =>
      simp only [dtsmStep, hps, bind, Except.bind, pure, Except.pure] at h
      rcases ih (acc ++ s0) m h x hx with hin | ⟨entry, he, s, hs, hxs⟩
      · rcases List.mem_append.mp hin with hacc | hs0
        · exact Or.inl hacc
        · exact Or.inr ⟨e0, List.mem_cons_self e0 rest, s0, hps, hs0⟩
      · exact Or.inr ⟨entry, List.mem_cons_of_mem e0 he, s, hs, hxs⟩

/-- C7: for a successful dock-to-stock run, every sample is
non-negative and is the elapsed minutes `(stock − dock) / 60` of some
container of some shipment; conversely every non-negative elapsed value
of a processed shipment is among the samples (negative values are
discarded); and the reported average is the arithmetic mean of the
samples rounded to two decimals, or zero when there are none. -/
theorem dock_to_stock_properties
    (shipMap : List (Json × (ℚ × List Json)))
    (act51 : String → Except String Resp) (samples : List ℚ)
    (h : dockToStockMinutes shipMap act51 = Except.ok samples) :
    (∀ x ∈ samples, 0 ≤ x) ∧
    (∀ x ∈ samples, ∃ entry ∈ shipMap, ∃ strs r lst,
      csvOfJsonList entry.2.2 = Except.ok strs ∧
      act51 (String.intercalate "," strs) = Except.ok r ∧
      stockTimes (safe_wms_json r.body) = Except.ok lst ∧
      ∃ kv ∈ lst, x = (kv.2 - entry.2.1) / 60) ∧
    (∀ entry ∈ shipMap, entry.2.2.isEmpty = false →
      ∀ strs r lst, csvOfJsonList entry.2.2 = Except.ok strs →
        act51 (String.intercalate "," strs) = Except.ok r →
        stockTimes (safe_wms_json r.body) = Except.ok lst →
        ∀ kv ∈ lst, 0 ≤ (kv.2 - entry.2.1) / 60 →
          (kv.2 - entry.2.1) / 60 ∈ samples) ∧
    avgDts samples =
      (if samples.isEmpty then 0
        else round2 (samples.sum / samples.length)) := by
  unfold dockToStockMinutes at h
  refine ⟨?_, ?_, ?_, rfl⟩
  · intro x hx
    rcases dtsm_go_origin act51 shipMap [] samples h x hx with hacc | he
    · simp at hacc
    · rcases he with ⟨entry, _, s, hs, hxs⟩
      exact (perShipmentSamples_mem act51 entry.2.1 entry.2.2 s hs x hxs).1
  · intro x hx
    rcases dtsm_go_origin act51 shipMap [] samples h x hx with hacc | he
    · simp at hacc
    · rcases he with ⟨entry, hentry, s, hs, hxs⟩
      rcases (perShipmentSamples_mem act51 entry.2.1 entry.2.2 s hs x hxs).2
        with ⟨strs, r, lst, hcsv, hact, hst, kv, hkv, hxeq⟩
      exact ⟨entry, hentry, strs, r, lst, hcsv, hact, hst, kv, hkv, hxeq⟩
  · intro entry hentry hne strs r lst hcsv hact hst kv hkv hpos
    rcases dtsm_go_entries act51 shipMap [] samples h entry hentry with
      ⟨s, hs, hsub⟩
    exact hsub _ (perShipmentSamples_complete act51 entry.2.1 entry.2.2 s hs
      hne strs r lst hcsv hact hst kv hkv hpos)

/-- Witness for C7: one shipment whose putaway lookup returns no rows —
the pipeline succeeds with an empty sample list and a reported average
of zero. -/
theorem dock_to_stock_properties_witness :
    avgDts [] = 0 ∧
    (∀ x ∈ ([] : List ℚ), 0 ≤ x) := by
  have h := dock_to_stock_properties
    [(Json.str "S1", (0, [Json.str "C1"]))]
    (fun _ => Except.ok ⟨200, "", some (Json.arr [])⟩) [] rfl
  exact ⟨by simpa using h.2.2.2, h.1⟩

end Wms
